import Mathlib

/-!
Scrubbing controller and speed mapper (src/tracks/ui/Scrubbing.cpp).

A shallow embedding of the scrub/seek speed mapping functions and of the
`Scrubber` controller of `Scrubbing.cpp`, with the properties of the
specification stated and proved (or refuted) against it.

Conventions of the embedding.

* `double` arithmetic is read over an arbitrary linearly ordered field `K`
  (exact arithmetic; `K = ℚ` evaluates, `K = ℝ` is the real reading).  The
  literals `0.05`, `0.2`, ... are the exact decimal fractions.
* Divisions by a nonzero literal are plain divisions.  A division whose
  divisor depends on an input follows what `double` division does at
  divisor zero, where the quotient is infinite or not a number.  In the
  quotient under `std::min(1.0, ...)` of both mappers (`minOneDiv`) the
  minimum then is 1.0 and the computation goes on.  In every other such
  division (`fdiv`) the final result then is not a finite number, which is
  the result `none` of a function that returns `Option K`.
* `int` and `wxCoord` values are integers; signed overflow is undefined
  behaviour in the source and lies outside the model.
-/

namespace Scrubbing

section SpeedMapper

variable {K : Type} [LinearOrderedField K]

/-- A division `a / b` by an input-dependent divisor outside
`std::min(1.0, ...)`.  At `b = 0` the `double` quotient is infinite or not a
number, and in each of the three places where `FindScrubbingSpeed` uses such
a quotient the value it returns then is not a finite number either: `none`.
With `maxScrubSpeed = 0`, `unity` is infinite and the first branch multiplies
by `unity / (unity - tolerance)`, which is not a number.  The first branch
divides by `unity - tolerance = 0` only for a fraction that is not positive,
and the product of that fraction and the infinite quotient is not finite.
The third branch divides by `1 - (unity + tolerance) = 0` only at fraction 1,
where the dividend is 0 too. -/
def fdiv (a b : K) : Option K :=
  if b = 0 then none else some (a / b)

/-- The expression `std::min(1.0, a / b)` for an absolute value `a`.  At
`b = 0` the `double` quotient is infinite, or not a number when `a` is 0
too, and `std::min(1.0, q)`, which returns its first argument unless
`q < 1.0`, is 1.0 in both cases. -/
def minOneDiv (a b : K) : K :=
  if b = 0 then 1 else min 1 (a / b)

/-- Embedding of the anonymous-namespace function `FindScrubbingSpeed`
(Scrubbing.cpp, lines 43-80); `h` is `viewInfo.h`. -/
def FindScrubbingSpeed (h maxScrubSpeed screen timeAtMouse : K) : Option K :=
  let origin : K := h + screen / 2
  let snap : K := 5 / 100
  let factor : K := 1 - snap * 2
  let denom : K := factor * screen / 2
  let fraction : K := minOneDiv |timeAtMouse - origin| denom
  (fdiv 1 maxScrubSpeed).bind fun unity =>
  let tolerance : K := snap / factor
  (if fraction ≤ unity - tolerance then
      (fdiv unity (unity - tolerance)).bind fun r => some (fraction * r)
    else if fraction < unity + tolerance then
      some unity
    else
      (fdiv ((fraction - (unity + tolerance)) * (1 - unity))
          (1 - (unity + tolerance))).bind fun r => some (unity + r)).bind
  fun fraction2 =>
  let result : K := fraction2 * maxScrubSpeed
  some (if timeAtMouse < origin then result * (-1) else result)

/-- Embedding of the anonymous-namespace function `FindSeekSpeed`
(Scrubbing.cpp, lines 82-111); `h` is `viewInfo.h`.  Its only
input-dependent division stands under `std::min(1.0, ...)`, so it always
returns a finite number. -/
def FindSeekSpeed (h maxScrubSpeed screen timeAtMouse : K) : Option K :=
  let ARBITRARY_MULTIPLIER : K := 10
  let extreme : K := max 1 (maxScrubSpeed * ARBITRARY_MULTIPLIER)
  let halfScreen : K := screen / 2
  let origin : K := h + halfScreen
  let snap : K := 5 / 100
  let fraction : K := max snap (minOneDiv |timeAtMouse - origin| halfScreen)
  let result : K := 1 + ((fraction - snap) / (1 - snap)) * (extreme - 1)
  some (if timeAtMouse < origin then result * (-1) else result)

end SpeedMapper

section Controller

variable {K : Type}

/-- First enumerator of the anonymous `enum` of Scrubbing.cpp (line 35). -/
def SCRUBBING_PIXEL_TOLERANCE : Int := 10

/-- Constants and library functions used by `Scrubbing.cpp` that are defined
elsewhere: the declared speed bounds of the engine, the timer constants of
the track panel, and the values computed by the C library.  The divisor
`log(maxScrubSpeedBase)` of line 276 is a constant of the program (a
quarter of the logarithm of two), so that division is a plain one. -/
structure Env (K : Type) where
  /-- The static `maxScrubSpeedBase = pow(2.0, 1.0 / ScrubSpeedStepsPerOctave)`. -/
  maxScrubSpeedBase : K
  /-- The C library function `log`. -/
  log : K → K
  /-- Value of `AudioIO::GetMinScrubSpeed()`. -/
  minScrubSpeed : K
  /-- Value of `AudioIO::GetMaxScrubSpeed()`. -/
  maxScrubSpeed : K
  /-- The constant `kTimerInterval` (milliseconds). -/
  kTimerInterval : K
  /-- The constant `kOneSecondCountdown`. -/
  kOneSecondCountdown : Int

/-- The data members of `Scrubber` that the controller logic reads and
writes (the project pointer and the event forwarder are not state of the
state machine). -/
structure Scrubber (K : Type) where
  mScrubToken : Int
  mScrubStartClockTimeMillis : Int
  mScrubHasFocus : Bool
  mScrubSpeedDisplayCountdown : Int
  mScrubStartPosition : Int
  mMaxScrubSpeed : K
  mScrubSeekPress : Bool
  mSmoothScrollingScrub : Bool
  mLogMaxScrubSpeed : Int
  mAlwaysSeeking : Bool

/-- The fields of `AudioIOStartStreamOptions` that `MaybeStartScrubbing`
assigns (lines 251-267); `timeTrack = NULL` carries no data. -/
structure ScrubOptions (K : Type) where
  scrubDelay : K
  scrubStartClockTimeMillis : Int
  minScrubStutter : K
  maxScrubSpeed : K
  maxScrubTime : K

/-- Calls that the controller makes on its collaborators, in the order made.
The first four are commands to the audio engine (directly, or through the
control toolbar, which starts and stops the stream of the engine); the rest only
touch menus, the appearance of the toolbar, the status bar and the playback
scroller. -/
inductive Effect (K : Type) where
  /-- The call `ctb->PlayPlayRegion(SelectedRegion(time0, time1), options,
  PlayMode::normalPlay, PlayAppearance::Scrub, backwards)`. -/
  | playPlayRegion (time0 time1 : K) (options : ScrubOptions K) (backwards : Bool)
  /-- The call `ctb->StopPlaying()`. -/
  | stopPlaying
  /-- The call `gAudioIO->EnqueueScrubBySignedSpeed(speed, maxSpeed, seek)`;
  the speed is `none` when the computed speed is not a finite number. -/
  | enqueueScrubBySignedSpeed (speed : Option K) (maxSpeed : K) (seek : Bool)
  /-- The call `gAudioIO->EnqueueScrubByPosition(time, maxSpeed, seek)`. -/
  | enqueueScrubByPosition (time maxSpeed : K) (seek : Bool)
  /-- The call `UncheckAllMenuItems()`. -/
  | uncheckAllMenuItems
  /-- The call `CheckMenuItem()`. -/
  | checkMenuItem
  /-- The call `ctb->SetPlay(down, appearance)`; `scrub` tells whether the
  appearance is `PlayAppearance::Scrub` (else `Straight`). -/
  | setPlay (down scrub : Bool)
  /-- The call `ctb->UpdateStatusBar(mProject)`. -/
  | updateStatusBar
  /-- The call `mProject->GetPlaybackScroller().Activate(b)`. -/
  | activateScroller (b : Bool)

/-- An engine start request is a `PlayPlayRegion` call. -/
def Effect.isStartRequest : Effect K → Bool
  | .playPlayRegion _ _ _ _ => true
  | _ => false

/-- A command to the audio engine: a start, a stop or an enqueue. -/
def Effect.isEngineCommand : Effect K → Bool
  | .playPlayRegion _ _ _ _ => true
  | .stopPlaying => true
  | .enqueueScrubBySignedSpeed _ _ _ => true
  | .enqueueScrubByPosition _ _ _ => true
  | _ => false

/-- The state set up by the constructor `Scrubber::Scrubber` (lines 114-128).
`mAlwaysSeeking` has no initialiser there; its initial value is a
parameter. -/
def Scrubber.init [LinearOrderedField K] (alwaysSeeking : Bool) : Scrubber K :=
  { mScrubToken := -1
    mScrubStartClockTimeMillis := -1
    mScrubHasFocus := false
    mScrubSpeedDisplayCountdown := 0
    mScrubStartPosition := -1
    mMaxScrubSpeed := -1
    mScrubSeekPress := false
    mSmoothScrollingScrub := false
    mLogMaxScrubSpeed := 0
    mAlwaysSeeking := alwaysSeeking }

/-- Embedding of `Scrubber::IsScrubbing` (lines 383-398).  `audioIOToken` is
the value of `mProject->GetAudioIOToken()`; the function returns its result
and the (possibly reconciled) controller state. -/
def IsScrubbing (s : Scrubber K) (audioIOToken : Int) : Bool × Scrubber K :=
  if s.mScrubToken ≤ 0 then
    (false, s)
  else if s.mScrubToken = audioIOToken then
    (true, s)
  else
    (false, { s with mScrubToken := -1
                     mScrubStartPosition := -1
                     mSmoothScrollingScrub := false })

/-- Embedding of `Scrubber::SetScrollScrubbing` (lines 377-381). -/
def SetScrollScrubbing (s : Scrubber K) (scrollScrubbing : Bool) :
    Scrubber K × List (Effect K) :=
  ({ s with mSmoothScrollingScrub := scrollScrubbing },
   [Effect.activateScroller scrollScrubbing])

/-- Embedding of `Scrubber::StopScrubbing` (lines 361-375); `audioIOToken`
is the live id of the engine read by the call of `IsScrubbing`. -/
def StopScrubbing (s : Scrubber K) (audioIOToken : Int) :
    Scrubber K × List (Effect K) :=
  let s1 : Scrubber K := { s with mScrubStartPosition := -1 }
  let r2 := SetScrollScrubbing s1 false
  let r3 := IsScrubbing r2.1 audioIOToken
  if !r3.1 then
    (r3.2, [Effect.uncheckAllMenuItems] ++ r2.2 ++ [Effect.setPlay false false])
  else
    (r3.2, [Effect.uncheckAllMenuItems] ++ r2.2)

/-- Embedding of `Scrubber::MarkScrubStart` (lines 188-214); `now` is the
value of `::wxGetLocalTimeMillis()`. -/
def MarkScrubStart (now : Int) (s : Scrubber K) (xx : Int)
    (smoothScrolling alwaysSeeking : Bool) : Scrubber K × List (Effect K) :=
  let r1 := SetScrollScrubbing s smoothScrolling
  let s2 : Scrubber K := { r1.1 with mAlwaysSeeking := alwaysSeeking }
  let s3 : Scrubber K := { s2 with mScrubStartPosition := xx }
  let s4 : Scrubber K := { s3 with mScrubStartClockTimeMillis := now }
  (s4, [Effect.uncheckAllMenuItems] ++ r1.2 ++
    [Effect.setPlay true true, Effect.updateStatusBar, Effect.checkMenuItem])

/-- What `MaybeStartScrubbing` reads from its collaborators during one
call. -/
structure StartWorld (K : Type) where
  /-- Value of `mProject->GetAudioIOToken()` at the first `IsScrubbing()`. -/
  audioIOToken : Int
  /-- Value of `gAudioIO->IsBusy()`. -/
  busy : Bool
  /-- Value of `gAudioIO->GetNumCaptureChannels()`. -/
  numCaptureChannels : Int
  /-- The function `viewInfo.PositionToTime(position, leftOffset)`. -/
  PositionToTime : Int → Int → K
  /-- Value of `trackPanel->GetLeftOffset()`. -/
  leftOffset : Int
  /-- Value of `mProject->GetTracks()->GetEndTime()`. -/
  endTime : K
  /-- Value of `::wxGetLocalTimeMillis()`. -/
  now : Int
  /-- The token that `ctb->PlayPlayRegion(...)` returns. -/
  playToken : Int
  /-- Value of `mProject->GetAudioIOToken()` at the final `IsScrubbing()`. -/
  audioIOTokenAfter : Int

/-- Embedding of `Scrubber::MaybeStartScrubbing` (lines 218-295): the
returned flag, the state afterwards and the calls made. -/
def MaybeStartScrubbing [LinearOrderedField K] [FloorRing K] (env : Env K)
    (w : StartWorld K) (s : Scrubber K) (xx : Int) : Bool × Scrubber K × List (Effect K) :=
  if s.mScrubStartPosition < 0 then
    (false, s, [])
  else
    let r1 := IsScrubbing s w.audioIOToken
    if r1.1 then
      (false, r1.2, [])
    else
      let s1 := r1.2
      let busy := w.busy
      if busy && decide (w.numCaptureChannels > 0) then
        (false, { s1 with mScrubStartPosition := -1 }, [])
      else
        let position := xx
        let r2 : Scrubber K × List (Effect K) :=
          if |s1.mScrubStartPosition - position| ≥ SCRUBBING_PIXEL_TOLERANCE then
            let maxTime := w.endTime
            let time0 := min maxTime (w.PositionToTime s1.mScrubStartPosition w.leftOffset)
            let time1 := min maxTime (w.PositionToTime position w.leftOffset)
            if time1 ≠ time0 then
              let stop : List (Effect K) := if busy then [Effect.stopPlaying] else []
              let sa : Scrubber K := { s1 with mMaxScrubSpeed := 1 }
              let options : ScrubOptions K :=
                { scrubDelay := env.kTimerInterval / 1000
                  scrubStartClockTimeMillis := s1.mScrubStartClockTimeMillis
                  minScrubStutter := 2 / 10
                  maxScrubSpeed := 1
                  maxScrubTime := w.endTime }
              let backwards : Bool := decide (time1 < time0)
              let sb : Scrubber K :=
                { sa with mLogMaxScrubSpeed :=
                    ⌊1 / 2 + env.log sa.mMaxScrubSpeed / env.log env.maxScrubSpeedBase⌋ }
              let sc : Scrubber K := { sb with mScrubSpeedDisplayCountdown := 0 }
              ({ sc with mScrubToken := w.playToken },
               stop ++ [Effect.playPlayRegion time0 time1 options backwards])
            else
              (s1, [])
          else
            ({ s1 with mScrubStartClockTimeMillis := w.now }, [])
        let r3 := IsScrubbing r2.1 w.audioIOTokenAfter
        let s4 : Scrubber K := if r3.1 then { r3.2 with mScrubHasFocus := true } else r3.2
        (true, s4, r2.2)

/-- Embedding of `Scrubber::HandleScrollWheel` (lines 421-437); `pow` with
an `int` exponent is the integer power of the field. -/
def HandleScrollWheel [LinearOrderedField K] (env : Env K) (s : Scrubber K) (steps : Int) :
    Scrubber K :=
  let newLogMaxScrubSpeed : Int := s.mLogMaxScrubSpeed + steps
  let newSpeed : K := env.maxScrubSpeedBase ^ newLogMaxScrubSpeed
  if newSpeed ≥ env.minScrubSpeed ∧ newSpeed ≤ env.maxScrubSpeed then
    let s1 : Scrubber K :=
      { s with mLogMaxScrubSpeed := newLogMaxScrubSpeed, mMaxScrubSpeed := newSpeed }
    if !s1.mSmoothScrollingScrub then
      { s1 with mScrubSpeedDisplayCountdown := env.kOneSecondCountdown + 1 }
    else
      s1
  else
    s

/-- Whether a list of calls contains an engine start request. -/
def issuesStart (effs : List (Effect K)) : Bool :=
  effs.any Effect.isStartRequest


/-- The fields `mMaxScrubSpeed` and `mLogMaxScrubSpeed` of a state were set
by a call of `MaybeStartScrubbing` that issued a start request and by later
calls of `HandleScrollWheel`; `frame` covers every other operation, none of
which assigns either field. -/
inductive SpeedsSetByStart [LinearOrderedField K] [FloorRing K] (env : Env K) :
    Scrubber K → Prop
  | start (w : StartWorld K) (s : Scrubber K) (xx : Int) :
      issuesStart (MaybeStartScrubbing env w s xx).2.2 = true →
      SpeedsSetByStart env (MaybeStartScrubbing env w s xx).2.1
  | wheel (s : Scrubber K) (steps : Int) :
      SpeedsSetByStart env s → SpeedsSetByStart env (HandleScrollWheel env s steps)
  | frame (s t : Scrubber K) :
      SpeedsSetByStart env s → t.mMaxScrubSpeed = s.mMaxScrubSpeed →
      t.mLogMaxScrubSpeed = s.mLogMaxScrubSpeed → SpeedsSetByStart env t

/-- What `ContinueScrubbing` reads from its collaborators during one timer
tick. -/
structure TickWorld (K : Type) where
  /-- Value of `::wxGetMouseState().LeftIsDown()`. -/
  leftIsDown : Bool
  /-- The x coordinate of `trackPanel->ScreenToClient(state.GetPosition())`. -/
  positionX : Int
  /-- The function `viewInfo.PositionToTime(position, leftOffset)`. -/
  PositionToTime : Int → Int → K
  /-- Value of `trackPanel->GetLeftOffset()`. -/
  leftOffset : Int
  /-- Value of `viewInfo.h`. -/
  h : K
  /-- Value of `mProject->GetScreenEndTime()`. -/
  screenEndTime : K
  /-- What the enqueue call made during the tick returns. -/
  accepted : Bool

/-- Embedding of `Scrubber::PollIsSeeking` (lines 634-637). -/
def PollIsSeeking (s : Scrubber K) (leftIsDown : Bool) : Bool :=
  s.mAlwaysSeeking || leftIsDown

/-- Embedding of `Scrubber::FindScrubSpeed` (lines 413-419). -/
def FindScrubSpeed [LinearOrderedField K] (s : Scrubber K) (h screenEndTime : K)
    (seeking : Bool) (time : K) : Option K :=
  let screen : K := screenEndTime - h
  if seeking then FindSeekSpeed h s.mMaxScrubSpeed screen time
  else FindScrubbingSpeed h s.mMaxScrubSpeed screen time

/-- Embedding of `Scrubber::ContinueScrubbing` (lines 297-359): the state
afterwards and the calls made. -/
def ContinueScrubbing [LinearOrderedField K] (w : TickWorld K) (s : Scrubber K) :
    Scrubber K × List (Effect K) :=
  let seek : Bool := PollIsSeeking s w.leftIsDown || s.mScrubSeekPress
  let backup : Bool := s.mAlwaysSeeking
  let sa : Scrubber K := { s with mAlwaysSeeking := seek }
  let sb : Scrubber K := { sa with mAlwaysSeeking := backup }
  let r : Scrubber K × List (Effect K) :=
    if !sb.mScrubHasFocus then
      (sb, [Effect.enqueueScrubBySignedSpeed (some 0) sb.mMaxScrubSpeed false])
    else
      let time : K := w.PositionToTime w.positionX w.leftOffset
      let sc : Scrubber K :=
        if seek then { sb with mScrubSpeedDisplayCountdown := 1 } else sb
      if sc.mSmoothScrollingScrub then
        let speed := FindScrubSpeed sc w.h w.screenEndTime seek time
        (sc, [Effect.enqueueScrubBySignedSpeed speed sc.mMaxScrubSpeed seek])
      else
        (sc, [Effect.enqueueScrubByPosition time
          (if seek then 1 else sc.mMaxScrubSpeed) seek])
  let result : Bool := w.accepted
  let sd : Scrubber K := if result then { r.1 with mScrubSeekPress := false } else r.1
  let se : Scrubber K :=
    if sd.mSmoothScrollingScrub then sd
    else if sd.mScrubSpeedDisplayCountdown > 0 then
      { sd with mScrubSpeedDisplayCountdown := sd.mScrubSpeedDisplayCountdown - 1 }
    else sd
  (se, [Effect.updateStatusBar] ++ r.2)

/-- What `DoScrub` reads from its collaborators during one call. -/
structure ScrubWorld where
  /-- Value of `mProject->GetAudioIOToken()`. -/
  audioIOToken : Int
  /-- The x coordinate of `tp->ScreenToClient(::wxGetMouseState().GetPosition())`. -/
  mouseX : Int
  /-- The width that `tp->GetTracksUsableArea` reports. -/
  width : Int
  /-- Value of `tp->GetLeftOffset()`. -/
  offset : Int
  /-- Value of `::wxGetLocalTimeMillis()`. -/
  now : Int

/-- Embedding of `Scrubber::DoScrub` (lines 639-670); `matched` is the local
`match` of the source. -/
def DoScrub (w : ScrubWorld) (s : Scrubber K) (scroll seek : Bool) :
    Scrubber K × List (Effect K) :=
  let r := IsScrubbing s w.audioIOToken
  let wasScrubbing : Bool := r.1
  let s1 : Scrubber K := r.2
  let matched : Bool := (scroll == s1.mSmoothScrollingScrub && seek == s1.mAlwaysSeeking)
  if !wasScrubbing then
    let xx : Int := max w.offset (min (w.offset + w.width - 1) w.mouseX)
    MarkScrubStart w.now s1 xx scroll seek
  else if !matched then
    let r2 := SetScrollScrubbing s1 scroll
    let s3 : Scrubber K := { r2.1 with mAlwaysSeeking := seek }
    (s3, r2.2 ++ [Effect.uncheckAllMenuItems, Effect.checkMenuItem, Effect.updateStatusBar])
  else
    (s1, [Effect.stopPlaying])

/-- Whether a list of calls contains the stop request `ctb->StopPlaying()`. -/
def issuesStop (effs : List (Effect K)) : Bool :=
  effs.any fun e => match e with
    | .stopPlaying => true
    | _ => false

/-- The controller states reachable from the constructor by the operations
`MarkScrubStart`, `MaybeStartScrubbing`, `ContinueScrubbing`,
`HandleScrollWheel`, `StopScrubbing`, `DoScrub` and the reconciling query
`IsScrubbing`, whatever the collaborators answer. -/
inductive Reachable [LinearOrderedField K] [FloorRing K] (env : Env K) :
    Scrubber K → Prop
  | init (alwaysSeeking : Bool) : Reachable env (Scrubber.init alwaysSeeking)
  | markScrubStart (s : Scrubber K) (now xx : Int) (smoothScrolling alwaysSeeking : Bool) :
      Reachable env s →
      Reachable env (MarkScrubStart now s xx smoothScrolling alwaysSeeking).1
  | maybeStartScrubbing (s : Scrubber K) (w : StartWorld K) (xx : Int) :
      Reachable env s → Reachable env (MaybeStartScrubbing env w s xx).2.1
  | continueScrubbing (s : Scrubber K) (w : TickWorld K) :
      Reachable env s → Reachable env (ContinueScrubbing w s).1
  | handleScrollWheel (s : Scrubber K) (steps : Int) :
      Reachable env s → Reachable env (HandleScrollWheel env s steps)
  | stopScrubbing (s : Scrubber K) (audioIOToken : Int) :
      Reachable env s → Reachable env (StopScrubbing s audioIOToken).1
  | doScrub (s : Scrubber K) (w : ScrubWorld) (scroll seek : Bool) :
      Reachable env s → Reachable env (DoScrub w s scroll seek).1
  | isScrubbing (s : Scrubber K) (audioIOToken : Int) :
      Reachable env s → Reachable env (IsScrubbing s audioIOToken).2

/-- Embedding of `Scrubber::ShouldDrawScrubSpeed` (lines 400-411):
`audioIOToken` is the live id of the engine read by `IsScrubbing()` and
`leftIsDown` the button state read by `PollIsSeeking()`; the function
returns its result and the (possibly reconciled) controller state. -/
def ShouldDrawScrubSpeed (s : Scrubber K) (audioIOToken : Int) (leftIsDown : Bool) :
    Bool × Scrubber K :=
  let r := IsScrubbing s audioIOToken
  (r.1 && (r.2.mScrubHasFocus &&
    ((!PollIsSeeking r.2 leftIsDown && decide (r.2.mScrubSpeedDisplayCountdown > 0))
      || r.2.mSmoothScrollingScrub)), r.2)

/-- The remapping of the fraction in `FindScrubbingSpeed` (lines 68-74) as a
total function of `unity` and `fraction`, with plain division.  It is used
to state lemmas on the magnitude of the result and agrees with the code
wherever the code divides by a nonzero number. -/
def scrubRemap [LinearOrderedField K] (unity fraction : K) : K :=
  let tolerance : K := (5 / 100) / (1 - (5 / 100) * 2)
  if fraction ≤ unity - tolerance then
    fraction * (unity / (unity - tolerance))
  else if fraction < unity + tolerance then
    unity
  else
    unity + (fraction - (unity + tolerance)) * (1 - unity) / (1 - (unity + tolerance))

/-- A sample of what `ContinueScrubbing` reads: the left button state, the
pointer at pixel `positionX`, a view of 100 pixels per second from time 0
with left offset 0 and a screen of 10 seconds, and the answer of the
engine to the enqueue call. -/
def sampleTick (K : Type) [LinearOrderedField K] (leftIsDown : Bool) (positionX : Int)
    (accepted : Bool) : TickWorld K :=
  { leftIsDown := leftIsDown
    positionX := positionX
    PositionToTime := fun position leftOffset => ((position - leftOffset : Int) : K) / 100
    leftOffset := 0
    h := 0
    screenEndTime := 10
    accepted := accepted }

/-- Sample values for the constants that Scrubbing.cpp does not define:
speed bounds 0.01 and 32, a timer interval of 50 ms and a countdown of 20
ticks; the base and the logarithm are arguments. -/
def Env.sample (K : Type) [LinearOrderedField K] (base : K) (log : K → K) : Env K :=
  { maxScrubSpeedBase := base
    log := log
    minScrubSpeed := 1 / 100
    maxScrubSpeed := 32
    kTimerInterval := 50
    kOneSecondCountdown := 20 }

/-- A sample controller state with the given token and start position, at
unit speed, without focus and with all flags off. -/
def sampleScrubber (K : Type) [LinearOrderedField K] (token start : Int) : Scrubber K :=
  { mScrubToken := token
    mScrubStartClockTimeMillis := 0
    mScrubHasFocus := false
    mScrubSpeedDisplayCountdown := 0
    mScrubStartPosition := start
    mMaxScrubSpeed := 1
    mScrubSeekPress := false
    mSmoothScrollingScrub := false
    mLogMaxScrubSpeed := 0
    mAlwaysSeeking := false }

/-- A sample of what `MaybeStartScrubbing` reads: the live id `live` of the
engine, its busy flag and capture channel count, a view of 100 pixels per
second with left offset 0, a track end at 60 s, and `playToken` as the token
that a start request returns and that the engine then reports as live. -/
def sampleWorld (K : Type) [LinearOrderedField K] (live : Int) (busy : Bool)
    (capture : Int) (playToken : Int) : StartWorld K :=
  { audioIOToken := live
    busy := busy
    numCaptureChannels := capture
    PositionToTime := fun position leftOffset => ((position - leftOffset : Int) : K) / 100
    leftOffset := 0
    endTime := 60
    now := 1000
    playToken := playToken
    audioIOTokenAfter := playToken }

end Controller

/-! ## Lemmas on the speed mapper -/

section MapperLemmas

variable {K : Type} [LinearOrderedField K]

/-- The divisor `denom` of `FindScrubbingSpeed` is nonzero on a nonzero
screen span. -/
theorem denom_ne_zero (screen : K) (hs : screen ≠ 0) :
    (1 - (5 / 100 : K) * 2) * screen / 2 ≠ 0 := by
  have h9 : (1 - (5 / 100 : K) * 2) ≠ 0 := by norm_num
  exact div_ne_zero (mul_ne_zero h9 hs) two_ne_zero

/-- At the midline origin `FindScrubbingSpeed` returns 0 when the maximum
scrub speed is below 18. -/
theorem FindScrubbingSpeed_origin_of_lt (h maxScrubSpeed screen : K)
    (hmax : 0 < maxScrubSpeed) (h18 : maxScrubSpeed < 18) (hscreen : 0 < screen) :
    FindScrubbingSpeed h maxScrubSpeed screen (h + screen / 2) = some 0 := by
  have hm : maxScrubSpeed ≠ 0 := ne_of_gt hmax
  have hden := denom_ne_zero screen (ne_of_gt hscreen)
  have hu : (5 / 100 : K) / (1 - 5 / 100 * 2) < 1 / maxScrubSpeed := by
    rw [lt_div_iff₀ hmax]
    norm_num
    linarith
  have hpos : (0:K) < 1 / maxScrubSpeed - 5 / 100 / (1 - 5 / 100 * 2) := sub_pos.mpr hu
  have hne : 1 / maxScrubSpeed - (5 / 100 : K) / (1 - 5 / 100 * 2) ≠ 0 := ne_of_gt hpos
  simp only [FindScrubbingSpeed, minOneDiv, fdiv, hden, hm, if_false, Option.some_bind, sub_self,
    abs_zero, zero_div]
  have hmin : min (1:K) 0 = 0 := min_eq_right zero_le_one
  rw [hmin, if_pos (le_of_lt hpos)]
  simp only [hne, if_false, Option.some_bind, zero_mul, lt_irrefl]

/-- At the midline origin `FindScrubbingSpeed` returns 1, not 0, when the
maximum scrub speed is above 18: the snap zone around unit speed then covers
the origin. -/
theorem FindScrubbingSpeed_origin_of_gt (h maxScrubSpeed screen : K)
    (h18 : 18 < maxScrubSpeed) (hscreen : 0 < screen) :
    FindScrubbingSpeed h maxScrubSpeed screen (h + screen / 2) = some 1 := by
  have hmax : 0 < maxScrubSpeed := lt_trans (by norm_num) h18
  have hm : maxScrubSpeed ≠ 0 := ne_of_gt hmax
  have hden := denom_ne_zero screen (ne_of_gt hscreen)
  have hu : 1 / maxScrubSpeed < (5 / 100 : K) / (1 - 5 / 100 * 2) := by
    rw [div_lt_iff₀ hmax]
    norm_num
    linarith
  have hupos : (0:K) < 1 / maxScrubSpeed := by positivity
  have hneg : ¬ ((0:K) ≤ 1 / maxScrubSpeed - 5 / 100 / (1 - 5 / 100 * 2)) :=
    not_le.mpr (sub_neg.mpr hu)
  have hlt : (0:K) < 1 / maxScrubSpeed + 5 / 100 / (1 - 5 / 100 * 2) := by
    have : (0:K) < 5 / 100 / (1 - 5 / 100 * 2) := by norm_num
    linarith
  simp only [FindScrubbingSpeed, minOneDiv, fdiv, hden, hm, if_false, Option.some_bind, sub_self,
    abs_zero, zero_div]
  have hmin : min (1:K) 0 = 0 := min_eq_right zero_le_one
  rw [hmin, if_neg hneg, if_pos hlt]
  simp [hm]

/-- For a maximum scrub speed of at least 1, other than 18 and 18/17 (where a
divisor of the remapping can vanish), and a positive screen span,
`FindScrubbingSpeed` returns a value, of magnitude at most the maximum. -/
theorem FindScrubbingSpeed_abs_le_of_one_le (h maxScrubSpeed screen timeAtMouse : K)
    (hmax : 1 ≤ maxScrubSpeed) (h18 : maxScrubSpeed ≠ 18) (h1817 : maxScrubSpeed ≠ 18 / 17)
    (hscreen : 0 < screen) :
    ∃ r, FindScrubbingSpeed h maxScrubSpeed screen timeAtMouse = some r ∧
      |r| ≤ maxScrubSpeed := by
  have hpos : 0 < maxScrubSpeed := lt_of_lt_of_le one_pos hmax
  have hm : maxScrubSpeed ≠ 0 := ne_of_gt hpos
  have hden := denom_ne_zero screen (ne_of_gt hscreen)
  have hdpos : (0:K) < (1 - (5 / 100 : K) * 2) * screen / 2 := by
    have : (0:K) < 1 - (5 / 100 : K) * 2 := by norm_num
    positivity
  simp only [FindScrubbingSpeed, minOneDiv, fdiv, hden, hm, if_false, Option.some_bind]
  set q := |timeAtMouse - (h + screen / 2)| / ((1 - (5 / 100 : K) * 2) * screen / 2) with hq
  have hq0 : 0 ≤ q := div_nonneg (abs_nonneg _) (le_of_lt hdpos)
  set f := min 1 q with hf
  have hf0 : 0 ≤ f := le_min zero_le_one hq0
  have hf1 : f ≤ 1 := min_le_left _ _
  set u := 1 / maxScrubSpeed with hu
  have hu0 : 0 < u := by rw [hu]; positivity
  have hu1 : u ≤ 1 := by rw [hu, div_le_one hpos]; exact hmax
  have hum : u * maxScrubSpeed = 1 := by rw [hu]; field_simp
  have htol : (5 / 100 : K) / (1 - 5 / 100 * 2) = 1 / 18 := by norm_num
  rw [htol]
  have hu18 : u - 1 / 18 ≠ 0 := by
    intro h0
    apply h18
    have : u = 1 / 18 := by linarith
    rw [hu] at this
    field_simp at this
    linarith
  have hu17 : 1 - (u + 1 / 18) ≠ 0 := by
    intro h0
    apply h1817
    have : u = 17 / 18 := by linarith
    rw [hu] at this
    field_simp at this
    field_simp
    linarith
  have key : ∀ f2 : K, 0 ≤ f2 → f2 ≤ 1 →
      |(if timeAtMouse < h + screen / 2 then f2 * maxScrubSpeed * (-1)
        else f2 * maxScrubSpeed)| ≤ maxScrubSpeed := by
    intro f2 h0 h1
    have hb : f2 * maxScrubSpeed ≤ maxScrubSpeed := by
      calc f2 * maxScrubSpeed ≤ 1 * maxScrubSpeed :=
            mul_le_mul_of_nonneg_right h1 (le_of_lt hpos)
        _ = maxScrubSpeed := one_mul _
    have hn : 0 ≤ f2 * maxScrubSpeed := mul_nonneg h0 (le_of_lt hpos)
    split_ifs
    · rw [mul_neg_one, abs_neg, abs_of_nonneg hn]; exact hb
    · rw [abs_of_nonneg hn]; exact hb
  by_cases c1 : f ≤ u - 1 / 18
  · simp only [c1, if_true, hu18, if_false, Option.some_bind]
    have hp : 0 < u - 1 / 18 := lt_of_le_of_ne (le_trans hf0 c1) (Ne.symm hu18)
    refine ⟨_, rfl, key _ ?_ ?_⟩
    · exact mul_nonneg hf0 (div_nonneg (le_of_lt hu0) (le_of_lt hp))
    · have : f * (u / (u - 1 / 18)) ≤ u := by
        rw [mul_div_assoc', div_le_iff₀ hp, mul_comm u]
        exact mul_le_mul_of_nonneg_right c1 (le_of_lt hu0)
      linarith
  · by_cases c2 : f < u + 1 / 18
    · simp only [c1, if_false, c2, if_true, Option.some_bind]
      exact ⟨_, rfl, key _ (le_of_lt hu0) hu1⟩
    · simp only [c1, if_false, c2, hu17, Option.some_bind]
      have c2h : u + 1 / 18 ≤ f := not_lt.mp c2
      have hp : 0 < 1 - (u + 1 / 18) :=
        lt_of_le_of_ne (by linarith) (Ne.symm hu17)
      have hr0 : 0 ≤ (f - (u + 1 / 18)) * (1 - u) / (1 - (u + 1 / 18)) :=
        div_nonneg (mul_nonneg (by linarith) (by linarith)) (le_of_lt hp)
      have hr1 : (f - (u + 1 / 18)) * (1 - u) / (1 - (u + 1 / 18)) ≤ 1 - u := by
        rw [div_le_iff₀ hp]
        have hfa : (f - (u + 1 / 18)) ≤ 1 - (u + 1 / 18) := by linarith
        calc (f - (u + 1 / 18)) * (1 - u) ≤ (1 - (u + 1 / 18)) * (1 - u) :=
              mul_le_mul_of_nonneg_right hfa (by linarith)
          _ = (1 - u) * (1 - (u + 1 / 18)) := mul_comm _ _
      exact ⟨_, rfl, key _ (by linarith) (by linarith)⟩

/-- Below a maximum scrub speed of 1 the bound fails at the right edge of
every screen: there `FindScrubbingSpeed` returns a value above the
maximum. -/
theorem FindScrubbingSpeed_exceeds_max_of_lt_one (h maxScrubSpeed screen : K)
    (hmax : 0 < maxScrubSpeed) (hlt : maxScrubSpeed < 1) (hscreen : 0 < screen) :
    ∃ r, FindScrubbingSpeed h maxScrubSpeed screen (h + screen) = some r ∧
      maxScrubSpeed < r := by
  have hm : maxScrubSpeed ≠ 0 := ne_of_gt hmax
  have hden := denom_ne_zero screen (ne_of_gt hscreen)
  have hq : |h + screen - (h + screen / 2)| / ((1 - (5 / 100 : K) * 2) * screen / 2)
      = 10 / 9 := by
    have e : h + screen - (h + screen / 2) = screen / 2 := by ring
    rw [e, abs_of_pos (by positivity)]
    field_simp
    ring
  have hnl : ¬ (h + screen < h + screen / 2) := by
    have : screen / 2 < screen := by linarith
    intro hc
    linarith
  simp only [FindScrubbingSpeed, minOneDiv, fdiv, hden, hm, if_false, Option.some_bind, hq, hnl]
  have hmin : min (1:K) (10 / 9) = 1 := min_eq_left (by norm_num)
  have htol : (5 / 100 : K) / (1 - 5 / 100 * 2) = 1 / 18 := by norm_num
  rw [hmin, htol]
  set u := 1 / maxScrubSpeed with hu
  have hu1 : 1 < u := by rw [hu, one_lt_div hmax]; exact hlt
  have hum : u * maxScrubSpeed = 1 := by rw [hu]; field_simp
  have hp : 0 < u - 1 / 18 := by linarith
  by_cases c1 : (1:K) ≤ u - 1 / 18
  · simp only [c1, if_true, ne_of_gt hp, if_false, Option.some_bind]
    refine ⟨_, rfl, ?_⟩
    have e : 1 * (u / (u - 1 / 18)) * maxScrubSpeed = 1 / (u - 1 / 18) := by
      rw [one_mul, div_mul_eq_mul_div, hum]
    rw [e, lt_div_iff₀ hp]
    have : maxScrubSpeed * (u - 1 / 18) = 1 - maxScrubSpeed / 18 := by
      rw [mul_sub, mul_comm maxScrubSpeed u, hum]; ring
    rw [this]
    linarith
  · have c2 : (1:K) < u + 1 / 18 := by linarith
    simp only [c1, if_false, c2, if_true, Option.some_bind]
    exact ⟨_, rfl, by rw [hum]; exact hlt⟩

end MapperLemmas

/-! ## Lemmas on the controller -/

section ControllerLemmas

/-- The fourth power of the quarter-octave base is 2. -/
theorem quarter_octave_pow_four : ((2:ℝ) ^ ((1:ℝ) / 4)) ^ (4:ℕ) = 2 := by
  rw [← Real.rpow_natCast, ← Real.rpow_mul (by norm_num)]
  norm_num

/-- The quarter-octave base is at least 1. -/
theorem quarter_octave_ge_one : (1:ℝ) ≤ (2:ℝ) ^ ((1:ℝ) / 4) :=
  Real.one_le_rpow (by norm_num) (by norm_num)

/-- The quarter-octave base is at most 2. -/
theorem quarter_octave_le_two : (2:ℝ) ^ ((1:ℝ) / 4) ≤ 2 := by
  calc (2:ℝ) ^ ((1:ℝ) / 4) ≤ (2:ℝ) ^ (1:ℝ) :=
        Real.rpow_le_rpow_of_exponent_le (by norm_num) (by norm_num)
    _ = 2 := Real.rpow_one 2

/-- Without a positive token `IsScrubbing` answers false and changes
nothing. -/
theorem IsScrubbing_of_nonpos {K : Type} (s : Scrubber K) (audioIOToken : Int)
    (h : s.mScrubToken ≤ 0) : IsScrubbing s audioIOToken = (false, s) := by
  simp only [IsScrubbing, h, if_true]

/-- With a positive token equal to the live id `IsScrubbing` answers true and
changes nothing. -/
theorem IsScrubbing_of_live {K : Type} (s : Scrubber K) (audioIOToken : Int)
    (h : 0 < s.mScrubToken) (he : s.mScrubToken = audioIOToken) :
    IsScrubbing s audioIOToken = (true, s) := by
  subst he
  simp only [IsScrubbing, not_le.mpr h, if_false, if_true]

/-- With a positive token other than the live id `IsScrubbing` answers false
and resets the token, the start position and the smooth-scroll flag. -/
theorem IsScrubbing_of_stale {K : Type} (s : Scrubber K) (audioIOToken : Int)
    (h : 0 < s.mScrubToken) (he : s.mScrubToken ≠ audioIOToken) :
    IsScrubbing s audioIOToken =
      (false, { s with mScrubToken := -1, mScrubStartPosition := -1,
                       mSmoothScrollingScrub := false }) := by
  simp only [IsScrubbing, not_le.mpr h, if_false, he]

/-- The query `IsScrubbing` never touches the two speed fields. -/
theorem IsScrubbing_speed {K : Type} (s : Scrubber K) (audioIOToken : Int) :
    (IsScrubbing s audioIOToken).2.mMaxScrubSpeed = s.mMaxScrubSpeed ∧
    (IsScrubbing s audioIOToken).2.mLogMaxScrubSpeed = s.mLogMaxScrubSpeed := by
  unfold IsScrubbing
  split_ifs <;> exact ⟨rfl, rfl⟩

/-- A call of `MaybeStartScrubbing` that issues a start request leaves the
speed at 1 and the step count at the rounded logarithm of 1. -/
theorem MaybeStartScrubbing_started {K : Type} [LinearOrderedField K] [FloorRing K]
    (env : Env K) (w : StartWorld K) (s : Scrubber K) (xx : Int)
    (h : issuesStart (MaybeStartScrubbing env w s xx).2.2 = true) :
    (MaybeStartScrubbing env w s xx).2.1.mMaxScrubSpeed = 1 ∧
    (MaybeStartScrubbing env w s xx).2.1.mLogMaxScrubSpeed =
      ⌊1 / 2 + env.log 1 / env.log env.maxScrubSpeedBase⌋ := by
  simp only [MaybeStartScrubbing] at h ⊢
  split_ifs at h ⊢ <;>
    first
      | exact ⟨(IsScrubbing_speed _ _).1, (IsScrubbing_speed _ _).2⟩
      | (simp [issuesStart] at h)

/-- An accepted wheel input: the new step count, the new speed, and the
countdown forced to one second outside smooth-scroll mode. -/
theorem HandleScrollWheel_accept {K : Type} [LinearOrderedField K] (env : Env K)
    (s : Scrubber K) (steps : Int)
    (h : env.minScrubSpeed ≤ env.maxScrubSpeedBase ^ (s.mLogMaxScrubSpeed + steps) ∧
      env.maxScrubSpeedBase ^ (s.mLogMaxScrubSpeed + steps) ≤ env.maxScrubSpeed) :
    HandleScrollWheel env s steps =
      { s with mLogMaxScrubSpeed := s.mLogMaxScrubSpeed + steps
               mMaxScrubSpeed := env.maxScrubSpeedBase ^ (s.mLogMaxScrubSpeed + steps)
               mScrubSpeedDisplayCountdown :=
                 if s.mSmoothScrollingScrub then s.mScrubSpeedDisplayCountdown
                 else env.kOneSecondCountdown + 1 } := by
  simp only [HandleScrollWheel, ge_iff_le, h, and_self, if_true]
  cases hsm : s.mSmoothScrollingScrub <;> simp

/-- A rejected wheel input changes nothing. -/
theorem HandleScrollWheel_reject {K : Type} [LinearOrderedField K] (env : Env K)
    (s : Scrubber K) (steps : Int)
    (h : ¬ (env.minScrubSpeed ≤ env.maxScrubSpeedBase ^ (s.mLogMaxScrubSpeed + steps) ∧
      env.maxScrubSpeedBase ^ (s.mLogMaxScrubSpeed + steps) ≤ env.maxScrubSpeed)) :
    HandleScrollWheel env s steps = s := by
  simp only [HandleScrollWheel, ge_iff_le, h, if_false]

/-- Once set by a start and later wheel inputs, the speed is the base raised
to the step count. -/
theorem SpeedsSetByStart_pow {K : Type} [LinearOrderedField K] [FloorRing K] (env : Env K)
    (hlog : env.log 1 = 0) (s : Scrubber K) (hs : SpeedsSetByStart env s) :
    s.mMaxScrubSpeed = env.maxScrubSpeedBase ^ s.mLogMaxScrubSpeed := by
  induction hs with
  | start w s xx h =>
    obtain ⟨h1, h2⟩ := MaybeStartScrubbing_started env w s xx h
    rw [h1, h2, hlog]
    norm_num
  | wheel s steps _ ih =>
    by_cases h : env.minScrubSpeed ≤ env.maxScrubSpeedBase ^ (s.mLogMaxScrubSpeed + steps) ∧
      env.maxScrubSpeedBase ^ (s.mLogMaxScrubSpeed + steps) ≤ env.maxScrubSpeed
    · rw [HandleScrollWheel_accept env s steps h]
    · rw [HandleScrollWheel_reject env s steps h]; exact ih
  | frame s t _ h1 h2 ih => rw [h1, h2, ih]

/-- The sample start from position 100 to position 120 issues a start
request. -/
theorem sample_start_issued :
    issuesStart (MaybeStartScrubbing (Env.sample ℝ ((2:ℝ) ^ ((1:ℝ) / 4)) Real.log)
      (sampleWorld ℝ 0 false 0 8) (sampleScrubber ℝ (-1) 100) 120).2.2 = true := by
  norm_num [MaybeStartScrubbing, sampleScrubber, sampleWorld, IsScrubbing, issuesStart,
    SCRUBBING_PIXEL_TOLERANCE, Effect.isStartRequest, min_def]

end ControllerLemmas

/-! ## The speed mapper: bound and origin (C1, C2) -/

/-- C1, evaluated on the code where the bound fails.  With `viewInfo.h = 0`,
`maxScrubSpeed = 1/2`, `screen = 10` and `timeAtMouse = 10` (the right edge
of the screen) `FindScrubbingSpeed` returns 18/35, whose absolute value
exceeds `maxScrubSpeed`: below a maximum of 1 the first branch of the
remapping stretches the fraction beyond 1.  The same happens at the right
edge for every maximum below 1 (`FindScrubbingSpeed_exceeds_max_of_lt_one`);
from a maximum of 1 upwards the bound holds
(`FindScrubbingSpeed_abs_le_of_one_le`). -/
theorem FindScrubbingSpeed_exceeds_max_at_half :
    FindScrubbingSpeed (0:ℚ) (1 / 2) 10 10 = some (18 / 35) ∧ (1 / 2 : ℚ) < |18 / 35| := by
  constructor
  · norm_num [FindScrubbingSpeed, minOneDiv, fdiv]
  · norm_num [abs_of_pos]

/-- C2, evaluated on the code where it fails.  With `viewInfo.h = 0`,
`maxScrubSpeed = 32` and `screen = 10`, at the midline origin
`timeAtMouse = 0 + 10/2` the function `FindScrubbingSpeed` returns 1 and not
0: for a maximum above 18 the snap zone of unit speed covers the origin
(`FindScrubbingSpeed_origin_of_gt`), while below 18 the origin maps to 0
(`FindScrubbingSpeed_origin_of_lt`). -/
theorem FindScrubbingSpeed_origin_at_max_32 :
    FindScrubbingSpeed (0:ℚ) 32 10 (0 + 10 / 2) = some 1 := by
  norm_num [FindScrubbingSpeed, minOneDiv, fdiv]

/-! ## Stopping and the session token (C3, C4) -/

/-- C3 fails as stated: with stored token 5 and the live id of the engine
still 5, `StopScrubbing` leaves the token in place and `IsScrubbing` still
answers true afterwards. -/
theorem StopScrubbing_keeps_live_token :
    (IsScrubbing (StopScrubbing (sampleScrubber ℚ 5 100) 5).1 5).1 = true ∧
    (StopScrubbing (sampleScrubber ℚ 5 100) 5).1.mScrubToken = 5 := by
  simp [StopScrubbing, SetScrollScrubbing, IsScrubbing, sampleScrubber]

/-- C3 as amended.  In every state, after `StopScrubbing` the start position
is -1 and the smooth-scroll flag is off, and `StopScrubbing` does not itself
clear the token: the state it leaves is the old state with these two
fields reset, and with the token reset to -1 only by the reconciliation of
a stale token (positive, but not the live id of the engine).  So
`IsScrubbing` answers true after the stop exactly when the stored token was
live, and a live token stays stored.  If the stored token is not live, the
token after the stop is not positive and a following `MarkScrubStart` at
`x ≥ 0` leaves a fresh pending state: start position `x ≥ 0`, token still
not positive, and `IsScrubbing` false, without any change of state,
whatever the live id then is. -/
theorem StopScrubbing_then_MarkScrubStart {K : Type} (s : Scrubber K)
    (audioIOToken now x : Int) (smoothScrolling alwaysSeeking : Bool) (laterToken : Int)
    (hx : 0 ≤ x) :
    (StopScrubbing s audioIOToken).1.mScrubStartPosition = -1 ∧
    (StopScrubbing s audioIOToken).1.mSmoothScrollingScrub = false ∧
    (StopScrubbing s audioIOToken).1 =
      (if 0 < s.mScrubToken ∧ s.mScrubToken ≠ audioIOToken then
        { s with mScrubToken := -1, mScrubStartPosition := -1,
                 mSmoothScrollingScrub := false }
      else { s with mScrubStartPosition := -1, mSmoothScrollingScrub := false }) ∧
    ((IsScrubbing (StopScrubbing s audioIOToken).1 audioIOToken).1 = true ↔
      (0 < s.mScrubToken ∧ s.mScrubToken = audioIOToken)) ∧
    ((0 < s.mScrubToken ∧ s.mScrubToken = audioIOToken) →
      (StopScrubbing s audioIOToken).1.mScrubToken = s.mScrubToken) ∧
    (¬ (0 < s.mScrubToken ∧ s.mScrubToken = audioIOToken) →
      (StopScrubbing s audioIOToken).1.mScrubToken ≤ 0 ∧
      (MarkScrubStart now (StopScrubbing s audioIOToken).1 x smoothScrolling
          alwaysSeeking).1.mScrubStartPosition = x ∧
      0 ≤ (MarkScrubStart now (StopScrubbing s audioIOToken).1 x smoothScrolling
          alwaysSeeking).1.mScrubStartPosition ∧
      (MarkScrubStart now (StopScrubbing s audioIOToken).1 x smoothScrolling
          alwaysSeeking).1.mScrubToken ≤ 0 ∧
      IsScrubbing (MarkScrubStart now (StopScrubbing s audioIOToken).1 x smoothScrolling
          alwaysSeeking).1 laterToken =
        (false, (MarkScrubStart now (StopScrubbing s audioIOToken).1 x smoothScrolling
          alwaysSeeking).1)) := by
  by_cases h1 : s.mScrubToken ≤ 0
  · have h2 : ¬ 0 < s.mScrubToken := not_lt.mpr h1
    have hst : (StopScrubbing s audioIOToken).1 =
        { s with mScrubStartPosition := -1, mSmoothScrollingScrub := false } := by
      simp [StopScrubbing, SetScrollScrubbing, IsScrubbing, h1]
    rw [hst, if_neg (fun hc => h2 hc.1)]
    refine ⟨rfl, rfl, rfl, ?_, ?_, ?_⟩
    · simp [IsScrubbing, h1, h2]
    · intro hl; exact absurd hl.1 h2
    · intro _
      simp [MarkScrubStart, SetScrollScrubbing, IsScrubbing, h1, hx]
  · have h2 : 0 < s.mScrubToken := not_le.mp h1
    by_cases h3 : s.mScrubToken = audioIOToken
    · have hst : (StopScrubbing s audioIOToken).1 =
          { s with mScrubStartPosition := -1, mSmoothScrollingScrub := false } := by
        subst h3
        simp [StopScrubbing, SetScrollScrubbing, IsScrubbing, h1]
      rw [hst, if_neg (fun hc => hc.2 h3)]
      refine ⟨rfl, rfl, rfl, ?_, ?_, ?_⟩
      · constructor
        · intro _; exact ⟨h2, h3⟩
        · intro _
          rw [IsScrubbing_of_live
            ({ s with mScrubStartPosition := -1, mSmoothScrollingScrub := false } :
              Scrubber K) audioIOToken h2 h3]
      · intro _; rfl
      · intro hn; exact absurd ⟨h2, h3⟩ hn
    · have hst : (StopScrubbing s audioIOToken).1 =
          { s with mScrubToken := -1, mScrubStartPosition := -1,
                   mSmoothScrollingScrub := false } := by
        simp [StopScrubbing, SetScrollScrubbing, IsScrubbing, h1, h3]
      rw [hst, if_pos ⟨h2, h3⟩]
      refine ⟨rfl, rfl, rfl, ?_, ?_, ?_⟩
      · constructor
        · intro hc
          simp [IsScrubbing] at hc
        · intro hc; exact absurd hc.2 h3
      · intro hc; exact absurd hc.2 h3
      · intro _
        simp [MarkScrubStart, SetScrollScrubbing, IsScrubbing, hx]

/-- Witness for C3 as amended: a stale token 7 against live id 3, then a mark
at position 40. -/
theorem StopScrubbing_then_MarkScrubStart_witness :
    (StopScrubbing (sampleScrubber ℚ 7 100) 3).1.mScrubStartPosition = -1 ∧
    ((IsScrubbing (StopScrubbing (sampleScrubber ℚ 7 100) 3).1 3).1 = true ↔
      (0 < (sampleScrubber ℚ 7 100).mScrubToken ∧
        (sampleScrubber ℚ 7 100).mScrubToken = 3)) ∧
    (MarkScrubStart 2000 (StopScrubbing (sampleScrubber ℚ 7 100) 3).1 40 false
        false).1.mScrubStartPosition = 40 :=
  ⟨(StopScrubbing_then_MarkScrubStart (sampleScrubber ℚ 7 100) 3 2000 40 false false 3
      (by decide)).1,
    (StopScrubbing_then_MarkScrubStart (sampleScrubber ℚ 7 100) 3 2000 40 false false 3
      (by decide)).2.2.2.1,
    ((StopScrubbing_then_MarkScrubStart (sampleScrubber ℚ 7 100) 3 2000 40 false false 3
      (by decide)).2.2.2.2.2 (by simp [sampleScrubber])).2.1⟩

/-- C4.  `IsScrubbing` answers true exactly when the stored token is positive
and equals the live id of the engine; the state it leaves is the old state
with token and start position reset to -1 and the smooth-scroll flag cleared
when the stored token is positive but differs from the live id, and the old
state unchanged in every other case. -/
theorem IsScrubbing_iff_live_and_reconciles {K : Type} (s : Scrubber K)
    (audioIOToken : Int) :
    ((IsScrubbing s audioIOToken).1 = true ↔
        (0 < s.mScrubToken ∧ s.mScrubToken = audioIOToken)) ∧
    (IsScrubbing s audioIOToken).2 =
      if 0 < s.mScrubToken ∧ s.mScrubToken ≠ audioIOToken then
        { s with mScrubToken := -1, mScrubStartPosition := -1,
                 mSmoothScrollingScrub := false }
      else s := by
  by_cases h1 : s.mScrubToken ≤ 0
  · have h2 : ¬ 0 < s.mScrubToken := not_lt.mpr h1
    rw [IsScrubbing_of_nonpos s _ h1, if_neg (fun hc => h2 hc.1)]
    simp [h2]
  · have h2 : 0 < s.mScrubToken := not_le.mp h1
    by_cases h3 : s.mScrubToken = audioIOToken
    · rw [IsScrubbing_of_live s _ h2 h3, if_neg (fun hc => hc.2 h3)]
      exact ⟨⟨fun _ => ⟨h2, h3⟩, fun _ => rfl⟩, rfl⟩
    · rw [IsScrubbing_of_stale s _ h2 h3, if_pos ⟨h2, h3⟩]
      simp [h3]

/-! ## The scroll wheel (C5, C6) -/

/-- C5.  In a state whose speed fields were set by a start of
`MaybeStartScrubbing` and later wheel inputs, if the candidate speed of
`HandleScrollWheel(+1)` lies within the engine bounds, and so does the
candidate speed of the following `HandleScrollWheel(-1)`, then after the pair
`mMaxScrubSpeed` and `mLogMaxScrubSpeed` have exactly their values from
before the pair.  The C library is assumed to give `log(1.0) = 0`. -/
theorem HandleScrollWheel_up_down_restores {K : Type} [LinearOrderedField K] [FloorRing K]
    (env : Env K) (s : Scrubber K) (hlog : env.log 1 = 0) (hs : SpeedsSetByStart env s)
    (hup : env.minScrubSpeed ≤ env.maxScrubSpeedBase ^ (s.mLogMaxScrubSpeed + 1) ∧
      env.maxScrubSpeedBase ^ (s.mLogMaxScrubSpeed + 1) ≤ env.maxScrubSpeed)
    (hdown : env.minScrubSpeed ≤ env.maxScrubSpeedBase ^ (s.mLogMaxScrubSpeed + 1 + -1) ∧
      env.maxScrubSpeedBase ^ (s.mLogMaxScrubSpeed + 1 + -1) ≤ env.maxScrubSpeed) :
    (HandleScrollWheel env (HandleScrollWheel env s 1) (-1)).mMaxScrubSpeed =
      s.mMaxScrubSpeed ∧
    (HandleScrollWheel env (HandleScrollWheel env s 1) (-1)).mLogMaxScrubSpeed =
      s.mLogMaxScrubSpeed := by
  have hinv := SpeedsSetByStart_pow env hlog s hs
  rw [HandleScrollWheel_accept env s 1 hup, HandleScrollWheel_accept env _ (-1) hdown]
  simp only [hinv]
  constructor
  · congr 1; omega
  · omega

/-- Witness for C5: over the reals, with base the fourth root of 2, the
natural logarithm and bounds 0.01 and 32, in the state that the sample start
leaves (speed 1, step count 0). -/
theorem HandleScrollWheel_up_down_restores_witness :
    (HandleScrollWheel (Env.sample ℝ ((2:ℝ) ^ ((1:ℝ) / 4)) Real.log)
      (HandleScrollWheel (Env.sample ℝ ((2:ℝ) ^ ((1:ℝ) / 4)) Real.log)
        (MaybeStartScrubbing (Env.sample ℝ ((2:ℝ) ^ ((1:ℝ) / 4)) Real.log)
          (sampleWorld ℝ 0 false 0 8) (sampleScrubber ℝ (-1) 100) 120).2.1 1)
        (-1)).mMaxScrubSpeed = 1 := by
  have hlog : (Env.sample ℝ ((2:ℝ) ^ ((1:ℝ) / 4)) Real.log).log 1 = 0 := by
    simp [Env.sample]
  obtain ⟨h1, h2⟩ := MaybeStartScrubbing_started _ _ _ _ sample_start_issued
  have h3 : (MaybeStartScrubbing (Env.sample ℝ ((2:ℝ) ^ ((1:ℝ) / 4)) Real.log)
      (sampleWorld ℝ 0 false 0 8) (sampleScrubber ℝ (-1) 100) 120).2.1.mLogMaxScrubSpeed
      = 0 := by
    rw [h2, hlog]; norm_num
  have hb1 := quarter_octave_ge_one
  have hb2 := quarter_octave_le_two
  have := (HandleScrollWheel_up_down_restores _ _ hlog
    (SpeedsSetByStart.start _ _ _ sample_start_issued)
    (by rw [h3]; simp only [Env.sample]; norm_num; constructor <;> linarith)
    (by rw [h3]; simp only [Env.sample]; norm_num)).1
  rw [this, h1]

/-- C6.  If the candidate speed, the base raised to `mLogMaxScrubSpeed +
steps`, is below `GetMinScrubSpeed()` or above `GetMaxScrubSpeed()`, then
`HandleScrollWheel(steps)` returns the state unchanged, every field
included. -/
theorem HandleScrollWheel_out_of_bounds_unchanged {K : Type} [LinearOrderedField K]
    (env : Env K) (s : Scrubber K) (steps : Int)
    (hout : env.maxScrubSpeedBase ^ (s.mLogMaxScrubSpeed + steps) < env.minScrubSpeed ∨
      env.maxScrubSpeed < env.maxScrubSpeedBase ^ (s.mLogMaxScrubSpeed + steps)) :
    HandleScrollWheel env s steps = s := by
  apply HandleScrollWheel_reject
  rintro ⟨h1, h2⟩
  rcases hout with h | h
  · exact absurd h1 (not_le.mpr h)
  · exact absurd h2 (not_le.mpr h)

/-- Witness for C6: from step count 0, 24 steps up would give speed 64, above
the bound 32. -/
theorem HandleScrollWheel_out_of_bounds_unchanged_witness :
    HandleScrollWheel (Env.sample ℝ ((2:ℝ) ^ ((1:ℝ) / 4)) Real.log)
      (sampleScrubber ℝ 5 100) 24 = sampleScrubber ℝ 5 100 := by
  apply HandleScrollWheel_out_of_bounds_unchanged
  right
  have h : ((2:ℝ) ^ ((1:ℝ) / 4)) ^ ((0:ℤ) + 24) = 64 := by
    have e : ((0:ℤ) + 24) = ((4 * 6 : ℕ) : ℤ) := by norm_num
    rw [e, zpow_natCast, pow_mul, quarter_octave_pow_four]
    norm_num
  simp only [Env.sample, sampleScrubber]
  rw [h]
  norm_num

/-! ## Deciding whether to start (C7, C8) -/

/-- C7 fails as stated: the state with start position 100 and the stale token
7 (live id 3) has a start position that is not negative and `IsScrubbing`
false, and the pointer at 105 is within the tolerance of 100, yet
`MaybeStartScrubbing(105)` issues a start request and stores the new token 8.
The reconciling call of `IsScrubbing` has reset the start position to -1
after the test of line 220, and 105 is 106 pixels from -1. -/
theorem MaybeStartScrubbing_stale_token_starts :
    0 ≤ (sampleScrubber ℝ 7 100).mScrubStartPosition ∧
    (IsScrubbing (sampleScrubber ℝ 7 100) 3).1 = false ∧
    |(105 : Int) - (sampleScrubber ℝ 7 100).mScrubStartPosition| <
      SCRUBBING_PIXEL_TOLERANCE ∧
    issuesStart (MaybeStartScrubbing (Env.sample ℝ ((2:ℝ) ^ ((1:ℝ) / 4)) Real.log)
      (sampleWorld ℝ 3 false 0 8) (sampleScrubber ℝ 7 100) 105).2.2 = true ∧
    (MaybeStartScrubbing (Env.sample ℝ ((2:ℝ) ^ ((1:ℝ) / 4)) Real.log)
      (sampleWorld ℝ 3 false 0 8) (sampleScrubber ℝ 7 100) 105).2.1.mScrubToken = 8 := by
  refine ⟨by simp [sampleScrubber], by simp [sampleScrubber, IsScrubbing],
    by simp [sampleScrubber, SCRUBBING_PIXEL_TOLERANCE], ?_, ?_⟩
  · norm_num [MaybeStartScrubbing, sampleScrubber, sampleWorld, IsScrubbing, issuesStart,
      SCRUBBING_PIXEL_TOLERANCE, Effect.isStartRequest, min_def]
  · norm_num [MaybeStartScrubbing, sampleScrubber, sampleWorld, IsScrubbing,
      SCRUBBING_PIXEL_TOLERANCE, min_def]

/-- C7 as amended.  In a pending state whose token is not positive (start
position not negative, no session token stored), for every pointer
coordinate `x` less than `SCRUBBING_PIXEL_TOLERANCE = 10` pixels from the
start position, `MaybeStartScrubbing(x)` makes no call at all, so issues no
start request, leaves the scrub token unchanged, and `IsScrubbing` is false
afterwards whatever the live id of the engine. -/
theorem MaybeStartScrubbing_within_tolerance {K : Type} [LinearOrderedField K]
    [FloorRing K] (env : Env K) (w : StartWorld K) (s : Scrubber K) (x : Int)
    (hstart : 0 ≤ s.mScrubStartPosition) (htok : s.mScrubToken ≤ 0)
    (hnear : |x - s.mScrubStartPosition| < SCRUBBING_PIXEL_TOLERANCE) :
    (MaybeStartScrubbing env w s x).2.2 = [] ∧
    issuesStart (MaybeStartScrubbing env w s x).2.2 = false ∧
    (MaybeStartScrubbing env w s x).2.1.mScrubToken = s.mScrubToken ∧
    ∀ audioIOToken : Int,
      (IsScrubbing (MaybeStartScrubbing env w s x).2.1 audioIOToken).1 = false := by
  have h0 : ¬ s.mScrubStartPosition < 0 := not_lt.mpr hstart
  have hfar : ¬ |s.mScrubStartPosition - x| ≥ SCRUBBING_PIXEL_TOLERANCE := by
    rw [abs_sub_comm]; exact not_le.mpr hnear
  by_cases hb : (w.busy && decide (w.numCaptureChannels > 0)) = true
  · simp [MaybeStartScrubbing, h0, IsScrubbing, htok, hb, issuesStart]
  · simp [MaybeStartScrubbing, h0, IsScrubbing, htok, hb, hfar, issuesStart]

/-- Witness for C7 as amended: start position 100, pointer at 105, no token
stored. -/
theorem MaybeStartScrubbing_within_tolerance_witness :
    issuesStart (MaybeStartScrubbing (Env.sample ℝ ((2:ℝ) ^ ((1:ℝ) / 4)) Real.log)
      (sampleWorld ℝ 0 false 0 8) (sampleScrubber ℝ (-1) 100) 105).2.2 = false ∧
    (IsScrubbing (MaybeStartScrubbing (Env.sample ℝ ((2:ℝ) ^ ((1:ℝ) / 4)) Real.log)
      (sampleWorld ℝ 0 false 0 8) (sampleScrubber ℝ (-1) 100) 105).2.1 8).1 = false :=
  ⟨(MaybeStartScrubbing_within_tolerance (Env.sample ℝ ((2:ℝ) ^ ((1:ℝ) / 4)) Real.log)
      (sampleWorld ℝ 0 false 0 8) (sampleScrubber ℝ (-1) 100) 105
      (by simp [sampleScrubber]) (by simp [sampleScrubber])
      (by simp [sampleScrubber, SCRUBBING_PIXEL_TOLERANCE])).2.1,
    (MaybeStartScrubbing_within_tolerance (Env.sample ℝ ((2:ℝ) ^ ((1:ℝ) / 4)) Real.log)
      (sampleWorld ℝ 0 false 0 8) (sampleScrubber ℝ (-1) 100) 105
      (by simp [sampleScrubber]) (by simp [sampleScrubber])
      (by simp [sampleScrubber, SCRUBBING_PIXEL_TOLERANCE])).2.2.2 8⟩

/-- C8 fails as stated: with a live session (token 5, live id 5, start
position 100) and the engine busy with one capture channel,
`MaybeStartScrubbing` returns at the test of `IsScrubbing()` and the start
position stays 100, not -1. -/
theorem MaybeStartScrubbing_recording_live_session :
    (sampleWorld ℝ 5 true 1 8).busy = true ∧
    0 < (sampleWorld ℝ 5 true 1 8).numCaptureChannels ∧
    (MaybeStartScrubbing (Env.sample ℝ ((2:ℝ) ^ ((1:ℝ) / 4)) Real.log)
      (sampleWorld ℝ 5 true 1 8) (sampleScrubber ℝ 5 100) 300).2.1.mScrubStartPosition
      = 100 := by
  refine ⟨rfl, by simp [sampleWorld], ?_⟩
  norm_num [MaybeStartScrubbing, sampleScrubber, sampleWorld, IsScrubbing]

/-- C8 as amended.  If the engine is busy with a capture channel count above
zero, `MaybeStartScrubbing(x)` makes no call at all, so issues no start
request, and returns false, whatever the distance between `x` and the start
position; the start position afterwards is -1 when a gesture was pending
(start position not negative and no live session), and is otherwise as it
was before (negative without a marked gesture, untouched while the session
is live). -/
theorem MaybeStartScrubbing_while_recording {K : Type} [LinearOrderedField K]
    [FloorRing K] (env : Env K) (w : StartWorld K) (s : Scrubber K) (x : Int)
    (hbusy : w.busy = true) (hcap : 0 < w.numCaptureChannels) :
    (MaybeStartScrubbing env w s x).2.2 = [] ∧
    issuesStart (MaybeStartScrubbing env w s x).2.2 = false ∧
    (MaybeStartScrubbing env w s x).1 = false ∧
    (MaybeStartScrubbing env w s x).2.1.mScrubStartPosition =
      if 0 ≤ s.mScrubStartPosition ∧
          ¬ (0 < s.mScrubToken ∧ s.mScrubToken = w.audioIOToken) then -1
      else s.mScrubStartPosition := by
  have hrec : (w.busy && decide (w.numCaptureChannels > 0)) = true := by
    simp [hbusy, hcap]
  by_cases h0 : s.mScrubStartPosition < 0
  · have h0n : ¬ 0 ≤ s.mScrubStartPosition := not_le.mpr h0
    simp [MaybeStartScrubbing, h0, h0n, issuesStart]
  · have h0p : 0 ≤ s.mScrubStartPosition := not_lt.mp h0
    by_cases h1 : s.mScrubToken ≤ 0
    · have hn : ¬ (0 < s.mScrubToken ∧ s.mScrubToken = w.audioIOToken) :=
        fun hc => absurd hc.1 (not_lt.mpr h1)
      rw [if_pos ⟨h0p, hn⟩]
      simp [MaybeStartScrubbing, h0, IsScrubbing_of_nonpos s _ h1, hrec, issuesStart]
    · by_cases h2 : s.mScrubToken = w.audioIOToken
      · have hl : 0 < s.mScrubToken ∧ s.mScrubToken = w.audioIOToken := ⟨not_le.mp h1, h2⟩
        rw [if_neg (fun hc => hc.2 hl)]
        simp [MaybeStartScrubbing, h0, IsScrubbing_of_live s _ (not_le.mp h1) h2, issuesStart]
      · have hn : ¬ (0 < s.mScrubToken ∧ s.mScrubToken = w.audioIOToken) :=
          fun hc => h2 hc.2
        rw [if_pos ⟨h0p, hn⟩]
        simp [MaybeStartScrubbing, h0, IsScrubbing_of_stale s _ (not_le.mp h1) h2, hrec,
          issuesStart]

/-- Witness for C8 as amended: a pending gesture at 100, the engine busy with
one capture channel, the pointer 200 pixels away. -/
theorem MaybeStartScrubbing_while_recording_witness :
    (MaybeStartScrubbing (Env.sample ℝ ((2:ℝ) ^ ((1:ℝ) / 4)) Real.log)
      (sampleWorld ℝ 5 true 1 8) (sampleScrubber ℝ (-1) 100) 300).1 = false ∧
    (MaybeStartScrubbing (Env.sample ℝ ((2:ℝ) ^ ((1:ℝ) / 4)) Real.log)
      (sampleWorld ℝ 5 true 1 8) (sampleScrubber ℝ (-1) 100) 300).2.1.mScrubStartPosition
      = -1 := by
  have h := MaybeStartScrubbing_while_recording
    (Env.sample ℝ ((2:ℝ) ^ ((1:ℝ) / 4)) Real.log)
    (sampleWorld ℝ 5 true 1 8) (sampleScrubber ℝ (-1) 100) 300 rfl (by simp [sampleWorld])
  refine ⟨h.2.2.1, ?_⟩
  rw [h.2.2.2]
  simp [sampleScrubber]

/-! ## The speed mapper: zero screen span and the snap zone (C9, C10) -/

/-- C9 fails as stated: on a screen span of 0 the divisor `denom` of
`FindScrubbingSpeed` and the divisor `halfScreen` of `FindSeekSpeed` are 0,
the divisions by them are performed without a test, and the minimum with
1.0 makes the fraction 1; with `viewInfo.h = 0`, `maxScrubSpeed = 1/2` and
the pointer at time 1, `FindScrubbingSpeed` then returns 18/35, whose
magnitude is not `maxScrubSpeed`. -/
theorem FindScrubbingSpeed_zero_screen_at_half :
    (1 - (5 / 100 : ℚ) * 2) * 0 / 2 = 0 ∧
    minOneDiv |(1:ℚ) - (0 + 0 / 2)| ((1 - (5 / 100 : ℚ) * 2) * 0 / 2) = 1 ∧
    (0 : ℚ) / 2 = 0 ∧
    minOneDiv |(1:ℚ) - (0 + 0 / 2)| ((0 : ℚ) / 2) = 1 ∧
    FindScrubbingSpeed (0:ℚ) (1 / 2) 0 1 = some (18 / 35) ∧
    |(18 / 35 : ℚ)| ≠ 1 / 2 := by
  refine ⟨by norm_num, by norm_num [minOneDiv], by norm_num, by norm_num [minOneDiv],
    ?_, ?_⟩
  · norm_num [FindScrubbingSpeed, minOneDiv, fdiv]
  · rw [abs_of_pos] <;> norm_num

/-- C9 as amended.  On a screen span of 0, for every view offset, maximum
scrub speed and pointer time, neither function tests for the zero span:
both divide by it, and `std::min(1.0, ...)` of the quotient, which is
infinite or not a number, makes the fraction 1.  `FindSeekSpeed` then
returns `max(1, 10 * maxScrubSpeed)`, and `FindScrubbingSpeed` returns
`maxScrubSpeed` when `maxScrubSpeed` is 1 or at least 1.1, each negated when
the pointer is left of the origin, which is `viewInfo.h`. -/
theorem speed_mappers_zero_screen {K : Type} [LinearOrderedField K]
    (h maxScrubSpeed timeAtMouse : K) :
    minOneDiv |timeAtMouse - (h + 0 / 2)| ((1 - (5 / 100 : K) * 2) * 0 / 2) = 1 ∧
    minOneDiv |timeAtMouse - (h + 0 / 2)| ((0 : K) / 2) = 1 ∧
    FindSeekSpeed h maxScrubSpeed 0 timeAtMouse =
      some (if timeAtMouse < h then -(max 1 (10 * maxScrubSpeed))
        else max 1 (10 * maxScrubSpeed)) ∧
    (maxScrubSpeed = 1 ∨ 11 / 10 ≤ maxScrubSpeed →
      FindScrubbingSpeed h maxScrubSpeed 0 timeAtMouse =
        some (if timeAtMouse < h then -maxScrubSpeed else maxScrubSpeed)) := by
  have hz : (0 : K) / 2 = 0 := zero_div 2
  have hd : (1 - (5 / 100 : K) * 2) * 0 / 2 = 0 := by norm_num
  have hcomm : (10 : K) * maxScrubSpeed = maxScrubSpeed * 10 := mul_comm _ _
  refine ⟨by simp [minOneDiv], by simp [minOneDiv], ?_, ?_⟩
  · simp only [FindSeekSpeed, minOneDiv, hz, if_true, add_zero, hcomm]
    have h1 : max (5 / 100 : K) 1 = 1 := max_eq_right (by norm_num)
    have h2 : ((1 : K) - 5 / 100) / (1 - 5 / 100) = 1 := div_self (by norm_num)
    rw [h1, h2]
    split_ifs <;> simp
  · intro hm0
    have hm : maxScrubSpeed = 1 ∨ 18 / 17 < maxScrubSpeed :=
      hm0.imp id (fun hc => lt_of_lt_of_le (by norm_num) hc)
    have hpos : 0 < maxScrubSpeed := by
      rcases hm with hm | hm
      · rw [hm]; exact one_pos
      · exact lt_trans (by norm_num) hm
    have hne : maxScrubSpeed ≠ 0 := ne_of_gt hpos
    have htol : (5 / 100 : K) / (1 - 5 / 100 * 2) = 1 / 18 := by norm_num
    simp only [FindScrubbingSpeed, minOneDiv, fdiv, hd, hz, if_true, add_zero, hne,
      if_false, Option.some_bind, htol]
    rcases hm with hm | hm
    · subst hm
      have c1 : ¬ ((1 : K) ≤ 1 / 1 - 1 / 18) := by norm_num
      have c2 : (1 : K) < 1 / 1 + 1 / 18 := by norm_num
      simp only [c1, if_false, c2, if_true, Option.some_bind]
      split_ifs <;> simp
    · set u := 1 / maxScrubSpeed with hu
      have hum : u * maxScrubSpeed = 1 := by rw [hu]; field_simp
      have hu0 : 0 < u := by rw [hu]; positivity
      have hu17 : u < 17 / 18 := by
        rw [hu, div_lt_iff₀ hpos]
        have : (17 / 18 : K) * (18 / 17) = 1 := by norm_num
        nlinarith
      have c1 : ¬ ((1 : K) ≤ u - 1 / 18) := by intro hc; linarith
      have c2 : ¬ ((1 : K) < u + 1 / 18) := by intro hc; linarith
      have hn0 : (1 : K) - (u + 1 / 18) ≠ 0 := by
        intro hc
        have : u = 17 / 18 := by linarith
        linarith
      simp only [c1, c2, if_false, hn0, Option.some_bind]
      have e1 : (1 - (u + 1 / 18)) * (1 - u) / (1 - (u + 1 / 18)) = 1 - u := by
        rw [mul_comm, mul_div_assoc, div_self hn0, mul_one]
      have e : (u + (1 - (u + 1 / 18)) * (1 - u) / (1 - (u + 1 / 18))) * maxScrubSpeed
          = maxScrubSpeed := by
        rw [e1]; ring
      rw [e]
      split_ifs <;> simp

/-- Witness for C9 as amended: screen span 0 at offset 0, maximum speed 2 and
the pointer at time 1, right of the origin 0. -/
theorem speed_mappers_zero_screen_witness :
    FindSeekSpeed (0:ℚ) 2 0 1 =
      some (if (1:ℚ) < 0 then -(max 1 (10 * 2)) else max 1 (10 * 2)) ∧
    FindScrubbingSpeed (0:ℚ) 2 0 1 = some (if (1:ℚ) < 0 then -2 else 2) :=
  ⟨(speed_mappers_zero_screen (0:ℚ) 2 1).2.2.1,
    (speed_mappers_zero_screen (0:ℚ) 2 1).2.2.2 (Or.inr (by norm_num))⟩

/-- C10.  For `maxScrubSpeed > 0` and `screen > 0`, with `unity = 1 /
maxScrubSpeed`, `tolerance = 0.05 / 0.9` and `fraction = min(1, |timeAtMouse
- origin| / (0.9 * screen / 2))`: whenever `0 < unity - tolerance` and
`unity - tolerance ≤ fraction < unity + tolerance`, `FindScrubbingSpeed`
returns a value, of magnitude exactly 1. -/
theorem FindScrubbingSpeed_snap_unit_speed {K : Type} [LinearOrderedField K]
    (h maxScrubSpeed screen timeAtMouse : K)
    (hmax : 0 < maxScrubSpeed) (hscreen : 0 < screen)
    (hpos : 0 < 1 / maxScrubSpeed - (5 / 100) / (9 / 10))
    (hlo : 1 / maxScrubSpeed - (5 / 100) / (9 / 10) ≤
      min 1 (|timeAtMouse - (h + screen / 2)| / ((9 / 10) * screen / 2)))
    (hhi : min 1 (|timeAtMouse - (h + screen / 2)| / ((9 / 10) * screen / 2)) <
      1 / maxScrubSpeed + (5 / 100) / (9 / 10)) :
    ∃ r, FindScrubbingSpeed h maxScrubSpeed screen timeAtMouse = some r ∧ |r| = 1 := by
  have hm : maxScrubSpeed ≠ 0 := ne_of_gt hmax
  have hden := denom_ne_zero screen (ne_of_gt hscreen)
  have hfac : (1 - (5 / 100 : K) * 2) = 9 / 10 := by norm_num
  rw [hfac] at hden
  unfold FindScrubbingSpeed
  simp only [minOneDiv, fdiv, hfac, hden, hm, if_false, Option.some_bind]
  set fraction := min 1 (|timeAtMouse - (h + screen / 2)| / ((9 / 10) * screen / 2))
    with hfr
  set unity := 1 / maxScrubSpeed with hun
  have hum : unity * maxScrubSpeed = 1 := by rw [hun]; field_simp
  by_cases hc : fraction ≤ unity - (5 / 100) / (9 / 10)
  · have heq : fraction = unity - (5 / 100) / (9 / 10) := le_antisymm hc hlo
    have hne : unity - (5 / 100) / (9 / 10) ≠ 0 := ne_of_gt hpos
    simp only [hc, if_true, hne, if_false, Option.some_bind]
    refine ⟨_, rfl, ?_⟩
    have : fraction * (unity / (unity - (5 / 100) / (9 / 10))) * maxScrubSpeed = 1 := by
      rw [heq, mul_div_cancel₀ _ hne, hum]
    rw [this]
    split_ifs <;> norm_num
  · simp only [hc, if_false, hhi, if_true, Option.some_bind]
    refine ⟨_, rfl, ?_⟩
    rw [hum]
    split_ifs <;> norm_num

/-- Witness for C10: maximum speed 1 on a screen of 10 seconds from offset 0,
with the pointer at 9.25, where the fraction is exactly the lower snap
boundary `unity - tolerance = 17/18`. -/
theorem FindScrubbingSpeed_snap_unit_speed_witness :
    (1 : ℚ) / 1 - (5 / 100) / (9 / 10) =
      min 1 (|(37 / 4 : ℚ) - (0 + 10 / 2)| / ((9 / 10) * 10 / 2)) ∧
    ∃ r, FindScrubbingSpeed (0:ℚ) 1 10 (37 / 4) = some r ∧ |r| = 1 := by
  have habs : |(37 / 4 : ℚ) - (0 + 10 / 2)| = 17 / 4 := by
    rw [abs_of_pos] <;> norm_num
  have hfr : min 1 (|(37 / 4 : ℚ) - (0 + 10 / 2)| / ((9 / 10) * 10 / 2)) = 17 / 18 := by
    rw [habs]; norm_num
  refine ⟨by rw [hfr]; norm_num, ?_⟩
  exact FindScrubbingSpeed_snap_unit_speed 0 1 10 (37 / 4) (by norm_num) (by norm_num)
    (by norm_num) (by rw [hfr]; norm_num) (by rw [hfr]; norm_num)

/-! ## Further lemmas on the speed mapper and the controller -/

section MoreLemmas

/-- In the edge dead zone `FindScrubbingSpeed` returns the maximum scrub
speed, negated left of the origin, when the maximum is above 18/17. -/
theorem FindScrubbingSpeed_dead_zone_of_gt {K : Type} [LinearOrderedField K]
    (h maxScrubSpeed screen timeAtMouse : K)
    (hmax : 18 / 17 < maxScrubSpeed) (hscreen : 0 < screen)
    (hdead : (9 / 10) * screen / 2 ≤ |timeAtMouse - (h + screen / 2)|) :
    ∃ r, FindScrubbingSpeed h maxScrubSpeed screen timeAtMouse = some r ∧
      |r| = maxScrubSpeed := by
  have hpos : 0 < maxScrubSpeed := lt_trans (by norm_num) hmax
  have hm : maxScrubSpeed ≠ 0 := ne_of_gt hpos
  have hden := denom_ne_zero screen (ne_of_gt hscreen)
  have hfac : (1 - (5 / 100 : K) * 2) = 9 / 10 := by norm_num
  have hdpos : (0:K) < (9 / 10) * screen / 2 := by positivity
  have hq : (1:K) ≤ |timeAtMouse - (h + screen / 2)| / ((9 / 10) * screen / 2) := by
    rw [le_div_iff₀ hdpos, one_mul]; exact hdead
  simp only [FindScrubbingSpeed, minOneDiv, fdiv, hden, hm, if_false, Option.some_bind]
  rw [hfac, min_eq_left hq]
  set u := 1 / maxScrubSpeed with hu
  have hum : u * maxScrubSpeed = 1 := by rw [hu]; field_simp
  have hu0 : 0 < u := by rw [hu]; positivity
  have hu17 : u < 17 / 18 := by
    rw [hu, div_lt_iff₀ hpos]
    have : (17 / 18 : K) * (18 / 17) = 1 := by norm_num
    nlinarith
  have htol : (5 / 100 : K) / (9 / 10) = 1 / 18 := by norm_num
  rw [htol]
  have c1 : ¬ ((1:K) ≤ u - 1 / 18) := by intro hc; linarith
  have c2 : ¬ ((1:K) < u + 1 / 18) := by intro hc; linarith
  have hne : (1:K) - (u + 1 / 18) ≠ 0 := by
    intro hc
    have : u = 17 / 18 := by linarith
    linarith
  simp only [c1, c2, if_false, hne, Option.some_bind]
  have e : (u + (1 - (u + 1 / 18)) * (1 - u) / (1 - (u + 1 / 18))) * maxScrubSpeed
      = maxScrubSpeed := by
    have e1 : (1 - (u + 1 / 18)) * (1 - u) / (1 - (u + 1 / 18)) = 1 - u := by
      rw [mul_comm, mul_div_assoc, div_self hne, mul_one]
    rw [e1]
    ring
  refine ⟨_, rfl, ?_⟩
  rw [e]
  split_ifs
  · rw [mul_neg_one, abs_neg, abs_of_pos hpos]
  · exact abs_of_pos hpos

/-- The operation `MarkScrubStart` leaves the token and both speed fields as
they are. -/
theorem MarkScrubStart_frame {K : Type} (now : Int) (s : Scrubber K) (xx : Int)
    (smoothScrolling alwaysSeeking : Bool) :
    (MarkScrubStart now s xx smoothScrolling alwaysSeeking).1.mScrubToken = s.mScrubToken ∧
    (MarkScrubStart now s xx smoothScrolling alwaysSeeking).1.mMaxScrubSpeed =
      s.mMaxScrubSpeed ∧
    (MarkScrubStart now s xx smoothScrolling alwaysSeeking).1.mLogMaxScrubSpeed =
      s.mLogMaxScrubSpeed :=
  ⟨rfl, rfl, rfl⟩

/-- The operation `StopScrubbing` leaves both speed fields as they are. -/
theorem StopScrubbing_speed {K : Type} (s : Scrubber K) (audioIOToken : Int) :
    (StopScrubbing s audioIOToken).1.mMaxScrubSpeed = s.mMaxScrubSpeed ∧
    (StopScrubbing s audioIOToken).1.mLogMaxScrubSpeed = s.mLogMaxScrubSpeed := by
  simp only [StopScrubbing, SetScrollScrubbing]
  split_ifs <;> exact ⟨(IsScrubbing_speed _ _).1, (IsScrubbing_speed _ _).2⟩

/-- The operation `ContinueScrubbing` leaves both speed fields as they
are. -/
theorem ContinueScrubbing_speed {K : Type} [LinearOrderedField K] (w : TickWorld K)
    (s : Scrubber K) :
    (ContinueScrubbing w s).1.mMaxScrubSpeed = s.mMaxScrubSpeed ∧
    (ContinueScrubbing w s).1.mLogMaxScrubSpeed = s.mLogMaxScrubSpeed := by
  simp only [ContinueScrubbing]
  split_ifs <;> exact ⟨rfl, rfl⟩

/-- The operation `DoScrub` leaves both speed fields as they are. -/
theorem DoScrub_speed {K : Type} (w : ScrubWorld) (s : Scrubber K) (scroll seek : Bool) :
    (DoScrub w s scroll seek).1.mMaxScrubSpeed = s.mMaxScrubSpeed ∧
    (DoScrub w s scroll seek).1.mLogMaxScrubSpeed = s.mLogMaxScrubSpeed := by
  simp only [DoScrub, MarkScrubStart, SetScrollScrubbing]
  split_ifs <;> exact ⟨(IsScrubbing_speed _ _).1, (IsScrubbing_speed _ _).2⟩

/-- The operation `MaybeStartScrubbing` either sets the speed to 1 or leaves
it as it is. -/
theorem MaybeStartScrubbing_speed {K : Type} [LinearOrderedField K] [FloorRing K]
    (env : Env K) (w : StartWorld K) (s : Scrubber K) (xx : Int) :
    (MaybeStartScrubbing env w s xx).2.1.mMaxScrubSpeed = 1 ∨
    (MaybeStartScrubbing env w s xx).2.1.mMaxScrubSpeed = s.mMaxScrubSpeed := by
  simp only [MaybeStartScrubbing]
  split_ifs <;> simp [(IsScrubbing_speed _ _).1]

end MoreLemmas

/-! ## The speed mapper: dead zone, sign and seek snap zone (C11, C12, C13) -/

/-- C11, evaluated on the code where it fails.  With `viewInfo.h = 0`,
`maxScrubSpeed = 1/2` and `screen = 10`, the pointer at time 0 (the left
edge) lies in the edge dead zone, and `FindScrubbingSpeed` returns -18/35,
whose magnitude is not `maxScrubSpeed`.  Above a maximum of 18/17 the dead
zone does map to the maximum (`FindScrubbingSpeed_dead_zone_of_gt`). -/
theorem FindScrubbingSpeed_dead_zone_at_half :
    (9 / 10 : ℚ) * 10 / 2 ≤ |(0:ℚ) - (0 + 10 / 2)| ∧
    FindScrubbingSpeed (0:ℚ) (1 / 2) 10 0 = some (-(18 / 35)) ∧
    |(-(18 / 35) : ℚ)| ≠ 1 / 2 := by
  refine ⟨?_, ?_, ?_⟩
  · rw [abs_of_neg] <;> norm_num
  · norm_num [FindScrubbingSpeed, minOneDiv, fdiv]
  · rw [abs_of_neg] <;> norm_num

/-- Sign of the scrub speed over exact numbers.  For `maxScrubSpeed > 0`,
`screen > 0` and a pointer time other than the midline origin, unless
`maxScrubSpeed = 18/17` with the pointer in the edge dead zone (where 0 is
divided by 0), `FindScrubbingSpeed` returns a value that is strictly
negative when the pointer is left of the origin and strictly positive when
it is right of the origin. -/
theorem FindScrubbingSpeed_sign {K : Type} [LinearOrderedField K] (h maxScrubSpeed screen timeAtMouse : K)
    (hmax : 0 < maxScrubSpeed) (hscreen : 0 < screen)
    (hne : timeAtMouse ≠ h + screen / 2)
    (hdef : maxScrubSpeed ≠ 18 / 17 ∨
      |timeAtMouse - (h + screen / 2)| < (9 / 10) * screen / 2) :
    ∃ r, FindScrubbingSpeed h maxScrubSpeed screen timeAtMouse = some r ∧
      (timeAtMouse < h + screen / 2 → r < 0) ∧
      (h + screen / 2 < timeAtMouse → 0 < r) := by
  have hm : maxScrubSpeed ≠ 0 := ne_of_gt hmax
  have hden := denom_ne_zero screen (ne_of_gt hscreen)
  have hfac : (1 - (5 / 100 : K) * 2) = 9 / 10 := by norm_num
  have hdpos : (0:K) < (9 / 10) * screen / 2 := by positivity
  have habs : 0 < |timeAtMouse - (h + screen / 2)| := abs_pos.mpr (sub_ne_zero.mpr hne)
  simp only [FindScrubbingSpeed, minOneDiv, fdiv, hden, hm, if_false, Option.some_bind]
  rw [hfac]
  set q := |timeAtMouse - (h + screen / 2)| / ((9 / 10) * screen / 2) with hq
  have hq0 : 0 < q := div_pos habs hdpos
  set f := min 1 q with hf
  have hf0 : 0 < f := lt_min one_pos hq0
  have hf1 : f ≤ 1 := min_le_left _ _
  set u := 1 / maxScrubSpeed with hu
  have hu0 : 0 < u := by rw [hu]; positivity
  have htol : (5 / 100 : K) / (9 / 10) = 1 / 18 := by norm_num
  rw [htol]
  have key : ∀ f2 : K, 0 < f2 →
      (timeAtMouse < h + screen / 2 →
        (if timeAtMouse < h + screen / 2 then f2 * maxScrubSpeed * (-1)
          else f2 * maxScrubSpeed) < 0) ∧
      (h + screen / 2 < timeAtMouse →
        0 < (if timeAtMouse < h + screen / 2 then f2 * maxScrubSpeed * (-1)
          else f2 * maxScrubSpeed)) := by
    intro f2 h2
    have hp : 0 < f2 * maxScrubSpeed := mul_pos h2 hmax
    constructor
    · intro hl
      rw [if_pos hl]
      linarith
    · intro hg
      rw [if_neg (not_lt.mpr (le_of_lt hg))]
      exact hp
  by_cases c1 : f ≤ u - 1 / 18
  · have hp : 0 < u - 1 / 18 := lt_of_lt_of_le hf0 c1
    simp only [c1, if_true, ne_of_gt hp, if_false, Option.some_bind]
    exact ⟨_, rfl, key _ (mul_pos hf0 (div_pos hu0 hp))⟩
  · by_cases c2 : f < u + 1 / 18
    · simp only [c1, if_false, c2, if_true, Option.some_bind]
      exact ⟨_, rfl, key _ hu0⟩
    · have c2h : u + 1 / 18 ≤ f := not_lt.mp c2
      have hlt : u + 1 / 18 < 1 ∨ (u + 1 / 18 = 1 ∧ f = 1) := by
        rcases lt_or_eq_of_le (le_trans c2h hf1) with hh | hh
        · exact Or.inl hh
        · exact Or.inr ⟨hh, le_antisymm hf1 (by rw [← hh]; exact c2h)⟩
      have hp : 0 < 1 - (u + 1 / 18) := by
        rcases hlt with hh | ⟨hh, hf1e⟩
        · linarith
        · exfalso
          rcases hdef with hd | hd
          · apply hd
            have hu1 : u = 17 / 18 := by linarith
            rw [hu] at hu1
            field_simp at hu1
            field_simp
            linarith
          · have hq1 : q < 1 := by rw [hq, div_lt_one hdpos]; exact hd
            have : f < 1 := lt_of_le_of_lt (min_le_right _ _) hq1
            linarith
      simp only [c1, if_false, c2, ne_of_gt hp, Option.some_bind]
      refine ⟨_, rfl, key _ ?_⟩
      have hn : 0 ≤ (f - (u + 1 / 18)) * (1 - u) / (1 - (u + 1 / 18)) :=
        div_nonneg (mul_nonneg (by linarith) (by linarith)) (le_of_lt hp)
      linarith

/-- Example of the sign: maximum speed 2, screen of 10 seconds from offset 0,
pointer at time 1, left of the origin 5. -/
theorem FindScrubbingSpeed_sign_example :
    ∃ r, FindScrubbingSpeed (0:ℚ) 2 10 1 = some r ∧ r < 0 := by
  obtain ⟨r, hr, hneg, _⟩ := FindScrubbingSpeed_sign (0:ℚ) 2 10 1 (by norm_num)
    (by norm_num) (by norm_num) (Or.inl (by norm_num))
  exact ⟨r, hr, hneg (by norm_num)⟩

/-- C13.  For every maximum scrub speed and every `screen > 0`,
`FindSeekSpeed` at the midline origin returns exactly 1, and for every
pointer time in the snap zone `|timeAtMouse - origin| ≤ 0.05 * screen / 2`
it returns a value of magnitude exactly 1. -/
theorem FindSeekSpeed_snap_zone_unit {K : Type} [LinearOrderedField K] (h maxScrubSpeed screen timeAtMouse : K)
    (hscreen : 0 < screen)
    (hsnap : |timeAtMouse - (h + screen / 2)| ≤ (5 / 100) * (screen / 2)) :
    FindSeekSpeed h maxScrubSpeed screen (h + screen / 2) = some 1 ∧
    ∃ r, FindSeekSpeed h maxScrubSpeed screen timeAtMouse = some r ∧ |r| = 1 := by
  have hhalf : (0:K) < screen / 2 := by positivity
  have hne : screen / 2 ≠ 0 := ne_of_gt hhalf
  have hsn : ∀ q : K, q ≤ 5 / 100 → max (5 / 100 : K) (min 1 q) = 5 / 100 := by
    intro q hq
    exact max_eq_left (le_trans (min_le_right _ _) hq)
  constructor
  · simp only [FindSeekSpeed, minOneDiv, hne, if_false, Option.some_bind, sub_self, abs_zero,
      zero_div]
    rw [hsn 0 (by norm_num)]
    simp
  · simp only [FindSeekSpeed, minOneDiv, hne, if_false, Option.some_bind]
    have hq : |timeAtMouse - (h + screen / 2)| / (screen / 2) ≤ 5 / 100 := by
      rw [div_le_iff₀ hhalf]; exact hsnap
    rw [hsn _ hq]
    refine ⟨_, rfl, ?_⟩
    split_ifs <;> simp

/-- Witness for C13: maximum speed 1, screen of 10 seconds from offset 0,
pointer at the origin 5. -/
theorem FindSeekSpeed_snap_zone_unit_witness :
    ∃ r, FindSeekSpeed (0:ℚ) 1 10 (0 + 10 / 2) = some r ∧ |r| = 1 :=
  (FindSeekSpeed_snap_zone_unit (0:ℚ) 1 10 (0 + 10 / 2) (by norm_num) (by norm_num)).2

/-! ## Invariants of the speed fields (C14, C15) -/

/-- C14 fails as stated: the state that the constructor sets up is reachable
and has `mMaxScrubSpeed = -1.0`, below the lower bound 0.01 of the sample
engine, whose bounds satisfy `min ≤ 1 ≤ max`. -/
theorem Reachable_init_speed_below_min :
    Reachable (Env.sample ℝ ((2:ℝ) ^ ((1:ℝ) / 4)) Real.log) (Scrubber.init false) ∧
    (Env.sample ℝ ((2:ℝ) ^ ((1:ℝ) / 4)) Real.log).minScrubSpeed ≤ 1 ∧
    1 ≤ (Env.sample ℝ ((2:ℝ) ^ ((1:ℝ) / 4)) Real.log).maxScrubSpeed ∧
    (Scrubber.init false : Scrubber ℝ).mMaxScrubSpeed <
      (Env.sample ℝ ((2:ℝ) ^ ((1:ℝ) / 4)) Real.log).minScrubSpeed := by
  refine ⟨Reachable.init false, ?_, ?_, ?_⟩ <;> norm_num [Env.sample, Scrubber.init]

/-- C14 as amended.  If the engine bounds satisfy `min ≤ 1 ≤ max`, then in
every state reachable from the constructor by the controller operations,
`mMaxScrubSpeed` is either the initial value -1.0 of the constructor or lies
within `[GetMinScrubSpeed(), GetMaxScrubSpeed()]`. -/
theorem Reachable_speed_sentinel_or_in_bounds {K : Type} [LinearOrderedField K] [FloorRing K] (env : Env K)
    (hmin : env.minScrubSpeed ≤ 1) (hmaxb : 1 ≤ env.maxScrubSpeed) (s : Scrubber K)
    (hs : Reachable env s) :
    s.mMaxScrubSpeed = -1 ∨
      (env.minScrubSpeed ≤ s.mMaxScrubSpeed ∧ s.mMaxScrubSpeed ≤ env.maxScrubSpeed) := by
  induction hs with
  | init b => exact Or.inl rfl
  | markScrubStart s now xx sm al _ ih =>
    rw [(MarkScrubStart_frame now s xx sm al).2.1]; exact ih
  | maybeStartScrubbing s w xx _ ih =>
    rcases MaybeStartScrubbing_speed env w s xx with h | h
    · rw [h]; exact Or.inr ⟨hmin, hmaxb⟩
    · rw [h]; exact ih
  | continueScrubbing s w _ ih => rw [(ContinueScrubbing_speed w s).1]; exact ih
  | handleScrollWheel s steps _ ih =>
    by_cases h : env.minScrubSpeed ≤ env.maxScrubSpeedBase ^ (s.mLogMaxScrubSpeed + steps) ∧
      env.maxScrubSpeedBase ^ (s.mLogMaxScrubSpeed + steps) ≤ env.maxScrubSpeed
    · rw [HandleScrollWheel_accept env s steps h]; exact Or.inr h
    · rw [HandleScrollWheel_reject env s steps h]; exact ih
  | stopScrubbing s tok _ ih => rw [(StopScrubbing_speed s tok).1]; exact ih
  | doScrub s w scroll seek _ ih => rw [(DoScrub_speed w s scroll seek).1]; exact ih
  | isScrubbing s tok _ ih => rw [(IsScrubbing_speed s tok).1]; exact ih

/-- Witness for C14 as amended: after the constructor, a mark at 100 and a
start at pointer 120, the speed is at least the lower bound 0.01. -/
theorem Reachable_speed_sentinel_or_in_bounds_witness :
    (1 / 100 : ℝ) ≤ (MaybeStartScrubbing (Env.sample ℝ ((2:ℝ) ^ ((1:ℝ) / 4)) Real.log)
      (sampleWorld ℝ 0 false 0 8) (MarkScrubStart 0 (Scrubber.init false) 100 false
        false).1 120).2.1.mMaxScrubSpeed := by
  have h := Reachable_speed_sentinel_or_in_bounds (Env.sample ℝ ((2:ℝ) ^ ((1:ℝ) / 4)) Real.log)
    (by norm_num [Env.sample]) (by norm_num [Env.sample]) _
    (Reachable.maybeStartScrubbing _ (sampleWorld ℝ 0 false 0 8) 120
      (Reachable.markScrubStart _ 0 100 false false (Reachable.init false)))
  rcases h with h | h
  · exfalso
    rcases MaybeStartScrubbing_speed (Env.sample ℝ ((2:ℝ) ^ ((1:ℝ) / 4)) Real.log)
      (sampleWorld ℝ 0 false 0 8)
      (MarkScrubStart 0 (Scrubber.init false) 100 false false).1 120 with h1 | h1
    · rw [h1] at h; norm_num at h
    · revert h1
      norm_num [MaybeStartScrubbing, MarkScrubStart, SetScrollScrubbing, Scrubber.init,
        sampleWorld, IsScrubbing, SCRUBBING_PIXEL_TOLERANCE, min_def]
  · exact h.1

/-- C15.  In every state whose speed fields were set by a start of
`MaybeStartScrubbing` and later wheel inputs, accepted or rejected,
`mMaxScrubSpeed` is the base raised to `mLogMaxScrubSpeed`, and
`mLogMaxScrubSpeed` is the rounded logarithm `floor(0.5 + log(mMaxScrubSpeed)
/ log(base))` of the speed.  The logarithm is assumed exact on powers of
the base, `log(base ^ n) = n * log(base)`, with `log(base)` nonzero, as the
real logarithm is for the base `2 ^ (1/4)`. -/
theorem SpeedsSetByStart_consistent {K : Type} [LinearOrderedField K] [FloorRing K] (env : Env K)
    (hlogpow : ∀ n : Int, env.log (env.maxScrubSpeedBase ^ n) =
      (n : K) * env.log env.maxScrubSpeedBase)
    (hbase : env.log env.maxScrubSpeedBase ≠ 0) (s : Scrubber K)
    (hs : SpeedsSetByStart env s) :
    s.mMaxScrubSpeed = env.maxScrubSpeedBase ^ s.mLogMaxScrubSpeed ∧
    s.mLogMaxScrubSpeed =
      ⌊1 / 2 + env.log s.mMaxScrubSpeed / env.log env.maxScrubSpeedBase⌋ := by
  have hlog1 : env.log 1 = 0 := by
    have := hlogpow 0
    simpa using this
  have hinv := SpeedsSetByStart_pow env hlog1 s hs
  refine ⟨hinv, ?_⟩
  have hfl : ⌊(1 / 2 : K)⌋ = 0 := by
    rw [Int.floor_eq_zero_iff]
    constructor <;> norm_num
  rw [hinv, hlogpow, mul_div_assoc, div_self hbase, mul_one, Int.floor_add_int, hfl,
    zero_add]

/-- Witness for C15: over the reals, with the natural logarithm and the
fourth root of 2 as base, in the state that the sample start leaves. -/
theorem SpeedsSetByStart_consistent_witness :
    (MaybeStartScrubbing (Env.sample ℝ ((2:ℝ) ^ ((1:ℝ) / 4)) Real.log)
      (sampleWorld ℝ 0 false 0 8) (sampleScrubber ℝ (-1) 100) 120).2.1.mLogMaxScrubSpeed =
    ⌊(1 / 2 : ℝ) + Real.log (MaybeStartScrubbing
        (Env.sample ℝ ((2:ℝ) ^ ((1:ℝ) / 4)) Real.log)
        (sampleWorld ℝ 0 false 0 8) (sampleScrubber ℝ (-1) 100) 120).2.1.mMaxScrubSpeed /
      Real.log ((2:ℝ) ^ ((1:ℝ) / 4))⌋ :=
  (SpeedsSetByStart_consistent (Env.sample ℝ ((2:ℝ) ^ ((1:ℝ) / 4)) Real.log)
    (fun n => Real.log_zpow _ n)
    (by
      simp only [Env.sample]
      rw [Real.log_rpow (by norm_num)]
      have : 0 < Real.log 2 := Real.log_pos (by norm_num)
      positivity)
    _ (SpeedsSetByStart.start _ _ _ sample_start_issued)).2

/-! ## The timer tick (C16, C17) -/

/-- C16.  After `ContinueScrubbing` the pending-seek flag `mScrubSeekPress`
equals its value before and-ed with the negation of the answer of the
enqueue call: an accepted enqueue clears it, a rejected one leaves it as it
was, and the tick never sets it. -/
theorem ContinueScrubbing_seek_press {K : Type} [LinearOrderedField K] (w : TickWorld K) (s : Scrubber K) :
    (ContinueScrubbing w s).1.mScrubSeekPress = (s.mScrubSeekPress && !w.accepted) := by
  have hite : ∀ (c : Prop) [Decidable c] (a b : Scrubber K),
      (if c then a else b).mScrubSeekPress =
        if c then a.mScrubSeekPress else b.mScrubSeekPress :=
    fun c _ a b => apply_ite Scrubber.mScrubSeekPress c a b
  have hfst : ∀ (c : Prop) [Decidable c] (a b : Scrubber K × List (Effect K)),
      (if c then a else b).1 = if c then a.1 else b.1 :=
    fun c _ a b => apply_ite Prod.fst c a b
  simp only [ContinueScrubbing, hite, hfst, ite_self]
  cases w.accepted <;> simp

/-- C17.  Without focus (`mScrubHasFocus = false`), whatever the pointer
position, the button state and the pending-seek flag, the engine commands
that `ContinueScrubbing` emits are exactly the one call
`EnqueueScrubBySignedSpeed(0, mMaxScrubSpeed, false)`. -/
theorem ContinueScrubbing_unfocused_keep_alive {K : Type} [LinearOrderedField K] (w : TickWorld K) (s : Scrubber K)
    (hfocus : s.mScrubHasFocus = false) :
    (ContinueScrubbing w s).2.filter Effect.isEngineCommand =
      [Effect.enqueueScrubBySignedSpeed (some 0) s.mMaxScrubSpeed false] := by
  simp [ContinueScrubbing, hfocus, Effect.isEngineCommand]

/-- Witness for C17: a state without focus at unit speed, with the left
button down and the pointer at pixel 730. -/
theorem ContinueScrubbing_unfocused_keep_alive_witness :
    (ContinueScrubbing (sampleTick ℚ true 730 true)
      (sampleScrubber ℚ 5 100)).2.filter Effect.isEngineCommand =
      [Effect.enqueueScrubBySignedSpeed (some 0) 1 false] :=
  ContinueScrubbing_unfocused_keep_alive (sampleTick ℚ true 730 true) (sampleScrubber ℚ 5 100) rfl

/-! ## Mode toggling and marking (C18, C19, C20) -/

/-- C18.  While `IsScrubbing()` is true: if the requested pair `(scroll,
seek)` differs from the current `(mSmoothScrollingScrub, mAlwaysSeeking)`,
`DoScrub` sets the two flags to the requested pair, issues no stop request
and leaves the token and the start position unchanged; if the pair equals
the current flags, `DoScrub` issues the stop request `ctb->StopPlaying()`
and itself leaves the whole state, the flags included, unchanged. -/
theorem DoScrub_while_scrubbing {K : Type} (w : ScrubWorld) (s : Scrubber K) (scroll seek : Bool)
    (hactive : (IsScrubbing s w.audioIOToken).1 = true) :
    (¬ (scroll = s.mSmoothScrollingScrub ∧ seek = s.mAlwaysSeeking) →
      (DoScrub w s scroll seek).1.mSmoothScrollingScrub = scroll ∧
      (DoScrub w s scroll seek).1.mAlwaysSeeking = seek ∧
      issuesStop (DoScrub w s scroll seek).2 = false ∧
      (DoScrub w s scroll seek).1.mScrubToken = s.mScrubToken ∧
      (DoScrub w s scroll seek).1.mScrubStartPosition = s.mScrubStartPosition) ∧
    ((scroll = s.mSmoothScrollingScrub ∧ seek = s.mAlwaysSeeking) →
      issuesStop (DoScrub w s scroll seek).2 = true ∧
      (DoScrub w s scroll seek).1 = s) := by
  have hlive : IsScrubbing s w.audioIOToken = (true, s) := by
    by_cases h1 : s.mScrubToken ≤ 0
    · rw [IsScrubbing_of_nonpos s _ h1] at hactive; cases hactive
    · by_cases h2 : s.mScrubToken = w.audioIOToken
      · exact IsScrubbing_of_live s _ (not_le.mp h1) h2
      · rw [IsScrubbing_of_stale s _ (not_le.mp h1) h2] at hactive; cases hactive
  constructor
  · intro hne
    have hm : (scroll == s.mSmoothScrollingScrub && seek == s.mAlwaysSeeking) = false := by
      cases hb : (scroll == s.mSmoothScrollingScrub && seek == s.mAlwaysSeeking)
      · rfl
      · exfalso; apply hne; simpa using hb
    simp [DoScrub, hlive, hm, SetScrollScrubbing, issuesStop]
  · rintro ⟨h1, h2⟩
    simp [DoScrub, hlive, h1, h2, issuesStop]

/-- Witness for C18: a live session (token 5, live id 5) with both flags
off; requesting `(true, false)` switches the scroll flag on, requesting
`(false, false)` issues the stop request. -/
theorem DoScrub_while_scrubbing_witness :
    (DoScrub ⟨5, 300, 800, 40, 2000⟩ (sampleScrubber ℚ 5 100) true false).1.mSmoothScrollingScrub
      = true ∧
    issuesStop (DoScrub ⟨5, 300, 800, 40, 2000⟩ (sampleScrubber ℚ 5 100) false false).2
      = true :=
  ⟨((DoScrub_while_scrubbing ⟨5, 300, 800, 40, 2000⟩ (sampleScrubber ℚ 5 100) true false
      (by simp [IsScrubbing, sampleScrubber])).1 (by simp [sampleScrubber])).1,
   ((DoScrub_while_scrubbing ⟨5, 300, 800, 40, 2000⟩ (sampleScrubber ℚ 5 100) false false
      (by simp [IsScrubbing, sampleScrubber])).2 (by simp [sampleScrubber])).1⟩

/-- C19 fails as stated: a pending state with start position 7000 and no
token, the pointer at 8000, both beyond the track end so that both boundary
times are 60, but the engine busy with one capture channel: then
`MaybeStartScrubbing` returns false and resets the start position to -1. -/
theorem MaybeStartScrubbing_equal_times_recording :
    0 ≤ (sampleScrubber ℝ (-1) 7000).mScrubStartPosition ∧
    (sampleScrubber ℝ (-1) 7000).mScrubToken ≤ 0 ∧
    SCRUBBING_PIXEL_TOLERANCE ≤ |(8000 : Int) - (sampleScrubber ℝ (-1) 7000).mScrubStartPosition| ∧
    min (sampleWorld ℝ 0 true 1 8).endTime
        ((sampleWorld ℝ 0 true 1 8).PositionToTime 7000 0) =
      min (sampleWorld ℝ 0 true 1 8).endTime
        ((sampleWorld ℝ 0 true 1 8).PositionToTime 8000 0) ∧
    (MaybeStartScrubbing (Env.sample ℝ ((2:ℝ) ^ ((1:ℝ) / 4)) Real.log)
      (sampleWorld ℝ 0 true 1 8) (sampleScrubber ℝ (-1) 7000) 8000).1 = false ∧
    (MaybeStartScrubbing (Env.sample ℝ ((2:ℝ) ^ ((1:ℝ) / 4)) Real.log)
      (sampleWorld ℝ 0 true 1 8) (sampleScrubber ℝ (-1) 7000) 8000).2.1.mScrubStartPosition
      = -1 := by
  refine ⟨by simp [sampleScrubber], by simp [sampleScrubber],
    by simp [sampleScrubber, SCRUBBING_PIXEL_TOLERANCE], ?_, ?_, ?_⟩
  · norm_num [sampleWorld, min_def]
  · norm_num [MaybeStartScrubbing, sampleScrubber, sampleWorld, IsScrubbing]
  · norm_num [MaybeStartScrubbing, sampleScrubber, sampleWorld, IsScrubbing]

/-- C19 as amended.  In a pending state (start position not negative, no
positive token stored), with the engine not busy recording, for every
pointer coordinate `x` at least `SCRUBBING_PIXEL_TOLERANCE = 10` pixels from
the start position: if the two boundary times `min(endTime,
PositionToTime(startPosition))` and `min(endTime, PositionToTime(x))` are
equal, `MaybeStartScrubbing(x)` makes no call, so issues no start request,
leaves the whole state unchanged, token and start position included, and
returns true. -/
theorem MaybeStartScrubbing_equal_times {K : Type} [LinearOrderedField K] [FloorRing K] (env : Env K)
    (w : StartWorld K) (s : Scrubber K) (x : Int)
    (hstart : 0 ≤ s.mScrubStartPosition) (htok : s.mScrubToken ≤ 0)
    (hfar : SCRUBBING_PIXEL_TOLERANCE ≤ |x - s.mScrubStartPosition|)
    (htimes : min w.endTime (w.PositionToTime s.mScrubStartPosition w.leftOffset) =
      min w.endTime (w.PositionToTime x w.leftOffset))
    (hnorec : ¬ (w.busy = true ∧ 0 < w.numCaptureChannels)) :
    MaybeStartScrubbing env w s x = (true, s, []) ∧
    issuesStart (MaybeStartScrubbing env w s x).2.2 = false ∧
    (MaybeStartScrubbing env w s x).2.1.mScrubToken = s.mScrubToken ∧
    (MaybeStartScrubbing env w s x).2.1.mScrubStartPosition = s.mScrubStartPosition ∧
    (MaybeStartScrubbing env w s x).1 = true := by
  have h0 : ¬ s.mScrubStartPosition < 0 := not_lt.mpr hstart
  have hfar2 : |s.mScrubStartPosition - x| ≥ SCRUBBING_PIXEL_TOLERANCE := by
    rw [abs_sub_comm]; exact hfar
  have hb : ¬ ((w.busy && decide (w.numCaptureChannels > 0)) = true) := by
    intro hc
    apply hnorec
    simpa using hc
  have heq : MaybeStartScrubbing env w s x = (true, s, []) := by
    simp only [MaybeStartScrubbing, h0, if_false, IsScrubbing_of_nonpos s _ htok, hb, hfar2,
      if_true, htimes, ne_eq, not_true_eq_false, Bool.false_eq_true]
  rw [heq]
  exact ⟨rfl, rfl, rfl, rfl, rfl⟩

/-- Witness for C19 as amended: start position 7000 and pointer 8000, both
beyond the track end at 60 s, the engine idle. -/
theorem MaybeStartScrubbing_equal_times_witness :
    MaybeStartScrubbing (Env.sample ℝ ((2:ℝ) ^ ((1:ℝ) / 4)) Real.log)
      (sampleWorld ℝ 0 false 0 8) (sampleScrubber ℝ (-1) 7000) 8000 =
      (true, sampleScrubber ℝ (-1) 7000, []) :=
  (MaybeStartScrubbing_equal_times (Env.sample ℝ ((2:ℝ) ^ ((1:ℝ) / 4)) Real.log)
    (sampleWorld ℝ 0 false 0 8) (sampleScrubber ℝ (-1) 7000) 8000
    (by simp [sampleScrubber]) (by simp [sampleScrubber])
    (by simp [sampleScrubber, SCRUBBING_PIXEL_TOLERANCE])
    (by norm_num [sampleWorld, sampleScrubber, min_def])
    (by simp [sampleWorld])).1

/-- C20.  `MarkScrubStart(xx, smoothScrolling, alwaysSeeking)` sets
`mScrubStartPosition = xx`, `mSmoothScrollingScrub = smoothScrolling` and
`mAlwaysSeeking = alwaysSeeking`, makes no call that is a command to the
audio engine, and leaves the token, `mMaxScrubSpeed` and
`mLogMaxScrubSpeed` unchanged. -/
theorem MarkScrubStart_sets_and_frames {K : Type} (now : Int) (s : Scrubber K) (xx : Int)
    (smoothScrolling alwaysSeeking : Bool) :
    (MarkScrubStart now s xx smoothScrolling alwaysSeeking).1.mScrubStartPosition = xx ∧
    (MarkScrubStart now s xx smoothScrolling alwaysSeeking).1.mSmoothScrollingScrub =
      smoothScrolling ∧
    (MarkScrubStart now s xx smoothScrolling alwaysSeeking).1.mAlwaysSeeking =
      alwaysSeeking ∧
    (MarkScrubStart now s xx smoothScrolling alwaysSeeking).2.filter
      Effect.isEngineCommand = [] ∧
    (MarkScrubStart now s xx smoothScrolling alwaysSeeking).1.mScrubToken = s.mScrubToken ∧
    (MarkScrubStart now s xx smoothScrolling alwaysSeeking).1.mMaxScrubSpeed =
      s.mMaxScrubSpeed ∧
    (MarkScrubStart now s xx smoothScrolling alwaysSeeking).1.mLogMaxScrubSpeed =
      s.mLogMaxScrubSpeed := by
  refine ⟨rfl, rfl, rfl, ?_, rfl, rfl, rfl⟩
  simp [MarkScrubStart, SetScrollScrubbing, Effect.isEngineCommand]

/-! ## Lemmas for the tick and for the magnitudes of the speed mapper -/

section TickAndMagnitudeLemmas

/-- The speed that `FindScrubSpeed` computes depends on the state only
through `mMaxScrubSpeed`. -/
theorem FindScrubSpeed_congr {K : Type} [LinearOrderedField K] (s t : Scrubber K)
    (h screenEndTime : K) (seeking : Bool) (time : K)
    (hst : s.mMaxScrubSpeed = t.mMaxScrubSpeed) :
    FindScrubSpeed s h screenEndTime seeking time =
      FindScrubSpeed t h screenEndTime seeking time := by
  simp only [FindScrubSpeed, hst]

/-- On a positive screen span `FindSeekSpeed` returns a value, whose
magnitude is the unsigned result of line 107. -/
theorem FindSeekSpeed_abs {K : Type} [LinearOrderedField K] (h maxScrubSpeed screen timeAtMouse : K) (hscreen : 0 < screen) :
    ∃ r, FindSeekSpeed h maxScrubSpeed screen timeAtMouse = some r ∧
      |r| = 1 + (max (5 / 100) (min 1 (|timeAtMouse - (h + screen / 2)| / (screen / 2)))
          - 5 / 100) / (1 - 5 / 100) * (max 1 (maxScrubSpeed * 10) - 1) := by
  have hne : screen / 2 ≠ 0 := ne_of_gt (by positivity)
  simp only [FindSeekSpeed, minOneDiv, hne, if_false, Option.some_bind]
  set fr := max (5 / 100 : K) (min 1 (|timeAtMouse - (h + screen / 2)| / (screen / 2)))
    with hfr
  have h1 : (5 / 100 : K) ≤ fr := le_max_left _ _
  have h2 : (1:K) ≤ max 1 (maxScrubSpeed * 10) := le_max_left _ _
  have hpos : 0 ≤ (fr - 5 / 100) / (1 - 5 / 100) * (max 1 (maxScrubSpeed * 10) - 1) :=
    mul_nonneg (div_nonneg (by linarith) (by norm_num)) (by linarith)
  refine ⟨_, rfl, ?_⟩
  split_ifs
  · rw [mul_neg_one, abs_neg, abs_of_pos (by linarith)]
  · rw [abs_of_pos (by linarith)]

/-- The remapped fraction is not negative on `[0, 1]`. -/
theorem scrubRemap_nonneg {K : Type} [LinearOrderedField K] (u f : K) (hu : 0 < u) (hf0 : 0 ≤ f) (hf1 : f ≤ 1) :
    0 ≤ scrubRemap u f := by
  have htol : (5 / 100 : K) / (1 - 5 / 100 * 2) = 1 / 18 := by norm_num
  simp only [scrubRemap, htol]
  split_ifs with c1 c2
  · exact mul_nonneg hf0 (div_nonneg (le_of_lt hu) (le_trans hf0 c1))
  · exact le_of_lt hu
  · have hb : u + 1 / 18 ≤ f := not_lt.mp c2
    have : 0 ≤ (f - (u + 1 / 18)) * (1 - u) / (1 - (u + 1 / 18)) :=
      div_nonneg (mul_nonneg (by linarith) (by linarith)) (by linarith)
    linarith

/-- The remapping of the fraction is non-decreasing on `[0, 1]`. -/
theorem scrubRemap_mono {K : Type} [LinearOrderedField K] (u f1 f2 : K) (hu : 0 < u) (hf0 : 0 ≤ f1) (hle : f1 ≤ f2)
    (hf1 : f2 ≤ 1) : scrubRemap u f1 ≤ scrubRemap u f2 := by
  have htol : (5 / 100 : K) / (1 - 5 / 100 * 2) = 1 / 18 := by norm_num
  have hlow : ∀ f : K, 0 ≤ f → f ≤ u - 1 / 18 → f * (u / (u - 1 / 18)) ≤ u := by
    intro f h0 hc
    rcases eq_or_lt_of_le (le_trans h0 hc) with ha | ha
    · rw [← ha, div_zero, mul_zero]; exact le_of_lt hu
    · rw [mul_div_assoc', div_le_iff₀ ha, mul_comm u]
      exact mul_le_mul_of_nonneg_right hc (le_of_lt hu)
  have hhigh : ∀ f : K, f ≤ 1 → u + 1 / 18 ≤ f →
      u ≤ u + (f - (u + 1 / 18)) * (1 - u) / (1 - (u + 1 / 18)) := by
    intro f h1 hb
    have : 0 ≤ (f - (u + 1 / 18)) * (1 - u) / (1 - (u + 1 / 18)) :=
      div_nonneg (mul_nonneg (by linarith) (by linarith)) (by linarith)
    linarith
  simp only [scrubRemap, htol]
  by_cases a1 : f1 ≤ u - 1 / 18
  · rw [if_pos a1]
    by_cases a2 : f2 ≤ u - 1 / 18
    · rw [if_pos a2]
      exact mul_le_mul_of_nonneg_right hle
        (div_nonneg (le_of_lt hu) (le_trans hf0 a1))
    · rw [if_neg a2]
      by_cases b2 : f2 < u + 1 / 18
      · rw [if_pos b2]; exact hlow f1 hf0 a1
      · rw [if_neg b2]
        exact le_trans (hlow f1 hf0 a1) (hhigh f2 hf1 (not_lt.mp b2))
  · rw [if_neg a1]
    have a2 : ¬ f2 ≤ u - 1 / 18 := fun hc => a1 (le_trans hle hc)
    rw [if_neg a2]
    by_cases b1 : f1 < u + 1 / 18
    · rw [if_pos b1]
      by_cases b2 : f2 < u + 1 / 18
      · rw [if_pos b2]
      · rw [if_neg b2]; exact hhigh f2 hf1 (not_lt.mp b2)
    · rw [if_neg b1]
      have b2 : ¬ f2 < u + 1 / 18 := fun hc => b1 (lt_of_le_of_lt hle hc)
      rw [if_neg b2]
      have hb1 : u + 1 / 18 ≤ f1 := not_lt.mp b1
      have hnum : (f1 - (u + 1 / 18)) * (1 - u) ≤ (f2 - (u + 1 / 18)) * (1 - u) :=
        mul_le_mul_of_nonneg_right (by linarith) (by linarith)
      have := div_le_div_of_nonneg_right hnum
        (show (0:K) ≤ 1 - (u + 1 / 18) by linarith)
      linarith

/-- Where no divisor vanishes, that is unless the maximum scrub speed is 18
with the pointer at the origin or 18/17 with the pointer in the edge dead
zone, `FindScrubbingSpeed` returns a value, whose magnitude is the remapped
fraction times the maximum scrub speed. -/
theorem FindScrubbingSpeed_abs_eq {K : Type} [LinearOrderedField K] (h maxScrubSpeed screen timeAtMouse : K)
    (hmax : 0 < maxScrubSpeed) (hscreen : 0 < screen)
    (h18 : maxScrubSpeed ≠ 18 ∨ timeAtMouse ≠ h + screen / 2)
    (h1817 : maxScrubSpeed ≠ 18 / 17 ∨
      |timeAtMouse - (h + screen / 2)| < (9 / 10) * screen / 2) :
    ∃ r, FindScrubbingSpeed h maxScrubSpeed screen timeAtMouse = some r ∧
      |r| = scrubRemap (1 / maxScrubSpeed)
        (min 1 (|timeAtMouse - (h + screen / 2)| / ((9 / 10) * screen / 2))) *
          maxScrubSpeed := by
  have hm : maxScrubSpeed ≠ 0 := ne_of_gt hmax
  have hden := denom_ne_zero screen (ne_of_gt hscreen)
  have hfac : (1 - (5 / 100 : K) * 2) = 9 / 10 := by norm_num
  have hdpos : (0:K) < (9 / 10) * screen / 2 := by positivity
  have htol : (5 / 100 : K) / (9 / 10) = 1 / 18 := by norm_num
  simp only [FindScrubbingSpeed, minOneDiv, scrubRemap, fdiv, hden, hm, if_false, Option.some_bind]
  rw [hfac, htol]
  set q := |timeAtMouse - (h + screen / 2)| / ((9 / 10) * screen / 2) with hq
  have hq0 : 0 ≤ q := div_nonneg (abs_nonneg _) (le_of_lt hdpos)
  set f := min 1 q with hf
  have hf0 : 0 ≤ f := le_min zero_le_one hq0
  have hf1 : f ≤ 1 := min_le_left _ _
  set u := 1 / maxScrubSpeed with hu
  have hu0 : 0 < u := by rw [hu]; positivity
  have key : ∀ f2 : K, 0 ≤ f2 →
      |(if timeAtMouse < h + screen / 2 then f2 * maxScrubSpeed * (-1)
        else f2 * maxScrubSpeed)| = f2 * maxScrubSpeed := by
    intro f2 h2
    have hn : 0 ≤ f2 * maxScrubSpeed := mul_nonneg h2 (le_of_lt hmax)
    split_ifs
    · rw [mul_neg_one, abs_neg, abs_of_nonneg hn]
    · rw [abs_of_nonneg hn]
  by_cases c1 : f ≤ u - 1 / 18
  · have hne : u - 1 / 18 ≠ 0 := by
      intro h0
      have hfz : f = 0 := le_antisymm (by rw [← h0]; exact c1) hf0
      rcases h18 with hd | hd
      · apply hd
        have hu18 : u = 1 / 18 := by linarith
        rw [hu] at hu18
        field_simp at hu18
        linarith
      · have habs : 0 < |timeAtMouse - (h + screen / 2)| :=
          abs_pos.mpr (sub_ne_zero.mpr hd)
        have hqp : 0 < q := div_pos habs hdpos
        have : 0 < f := lt_min one_pos hqp
        linarith
    have hp : 0 < u - 1 / 18 := lt_of_le_of_ne (le_trans hf0 c1) (Ne.symm hne)
    simp only [c1, if_true, hne, if_false, Option.some_bind]
    exact ⟨_, rfl, key _ (mul_nonneg hf0 (div_nonneg (le_of_lt hu0) (le_of_lt hp)))⟩
  · by_cases c2 : f < u + 1 / 18
    · simp only [c1, if_false, c2, if_true, Option.some_bind]
      exact ⟨_, rfl, key _ (le_of_lt hu0)⟩
    · have c2h : u + 1 / 18 ≤ f := not_lt.mp c2
      have hne : 1 - (u + 1 / 18) ≠ 0 := by
        intro h0
        rcases h1817 with hd | hd
        · apply hd
          have hu1 : u = 17 / 18 := by linarith
          rw [hu] at hu1
          field_simp at hu1
          field_simp
          linarith
        · have hq1 : q < 1 := by rw [hq, div_lt_one hdpos]; exact hd
          have : f < 1 := lt_of_le_of_lt (min_le_right _ _) hq1
          linarith
      have hp : 0 < 1 - (u + 1 / 18) := lt_of_le_of_ne (by linarith) (Ne.symm hne)
      simp only [c1, if_false, c2, hne, Option.some_bind]
      refine ⟨_, rfl, key _ ?_⟩
      have hn : 0 ≤ (f - (u + 1 / 18)) * (1 - u) / (1 - (u + 1 / 18)) :=
        div_nonneg (mul_nonneg (by linarith) (by linarith)) (le_of_lt hp)
      linarith

end TickAndMagnitudeLemmas

/-! ## The focused tick and the countdown (C21, C22) -/

/-- C21.  With focus (`mScrubHasFocus = true`), `ContinueScrubbing` decides
`seek = mAlwaysSeeking || left button down || mScrubSeekPress`.  In
non-smooth mode the engine commands it emits are exactly the one call
`EnqueueScrubByPosition(time, s, seek)`, with `time` the pointer time and
`s = 1.0` when `seek` holds and `s = mMaxScrubSpeed` otherwise; in smooth
mode they are exactly the one call
`EnqueueScrubBySignedSpeed(FindScrubSpeed(seek, time), mMaxScrubSpeed,
seek)`. -/
theorem ContinueScrubbing_focused_command {K : Type} [LinearOrderedField K] (w : TickWorld K) (s : Scrubber K)
    (hfocus : s.mScrubHasFocus = true) :
    (s.mSmoothScrollingScrub = false →
      (ContinueScrubbing w s).2.filter Effect.isEngineCommand =
        [Effect.enqueueScrubByPosition (w.PositionToTime w.positionX w.leftOffset)
          (if (s.mAlwaysSeeking || w.leftIsDown || s.mScrubSeekPress) = true then 1
            else s.mMaxScrubSpeed)
          (s.mAlwaysSeeking || w.leftIsDown || s.mScrubSeekPress)]) ∧
    (s.mSmoothScrollingScrub = true →
      (ContinueScrubbing w s).2.filter Effect.isEngineCommand =
        [Effect.enqueueScrubBySignedSpeed
          (FindScrubSpeed s w.h w.screenEndTime
            (s.mAlwaysSeeking || w.leftIsDown || s.mScrubSeekPress)
            (w.PositionToTime w.positionX w.leftOffset))
          s.mMaxScrubSpeed
          (s.mAlwaysSeeking || w.leftIsDown || s.mScrubSeekPress)]) := by
  constructor
  · intro hsm
    cases hseek : (s.mAlwaysSeeking || w.leftIsDown || s.mScrubSeekPress) <;>
      simp [ContinueScrubbing, PollIsSeeking, hfocus, hsm, hseek, Effect.isEngineCommand]
  · intro hsm
    cases hseek : (s.mAlwaysSeeking || w.leftIsDown || s.mScrubSeekPress) <;>
      simp [ContinueScrubbing, PollIsSeeking, hfocus, hsm, hseek, Effect.isEngineCommand,
        FindScrubSpeed]

/-- Witness for C21: a focused state in non-smooth mode at unit speed, the
left button up and the pointer at pixel 730. -/
theorem ContinueScrubbing_focused_command_witness :
    (ContinueScrubbing (sampleTick ℚ false 730 true)
      { sampleScrubber ℚ 5 100 with mScrubHasFocus := true }).2.filter
        Effect.isEngineCommand =
      [Effect.enqueueScrubByPosition
        ((sampleTick ℚ false 730 true).PositionToTime 730 0) 1 false] :=
  (ContinueScrubbing_focused_command (sampleTick ℚ false 730 true)
    { sampleScrubber ℚ 5 100 with mScrubHasFocus := true } rfl).1 rfl

/-- C22.  From a countdown that is not negative, the countdown after
`ContinueScrubbing` is given by the table below.  A focused tick that
decides seek first sets the countdown to 1 (line 332).  In smooth-scroll
mode the decrement of lines 356-357 is never applied: the countdown stays
as it was, or at that 1.  In non-smooth mode the decrement is applied once
when the countdown is positive: without a seek decision the countdown goes
down by exactly one, or stays 0; after a focused tick that decided seek it
is 0.  It never goes below zero, and after a focused non-smooth tick that
decided seek `ShouldDrawScrubSpeed()` is false, whatever the engine and the
button state then are. -/
theorem ContinueScrubbing_countdown {K : Type} [LinearOrderedField K] (w : TickWorld K) (s : Scrubber K)
    (hc : 0 ≤ s.mScrubSpeedDisplayCountdown) :
    (ContinueScrubbing w s).1.mScrubSpeedDisplayCountdown =
      (if (s.mScrubHasFocus && (s.mAlwaysSeeking || w.leftIsDown || s.mScrubSeekPress)) = true
        then (if s.mSmoothScrollingScrub = true then 1 else 0)
        else if s.mSmoothScrollingScrub = true then s.mScrubSpeedDisplayCountdown
        else if 0 < s.mScrubSpeedDisplayCountdown then s.mScrubSpeedDisplayCountdown - 1
        else s.mScrubSpeedDisplayCountdown) ∧
    0 ≤ (ContinueScrubbing w s).1.mScrubSpeedDisplayCountdown ∧
    (s.mSmoothScrollingScrub = false → s.mScrubHasFocus = true →
      (s.mAlwaysSeeking || w.leftIsDown || s.mScrubSeekPress) = true →
      (ContinueScrubbing w s).1.mScrubSpeedDisplayCountdown = 0 ∧
      ∀ (audioIOToken : Int) (leftIsDown : Bool),
        (ShouldDrawScrubSpeed (ContinueScrubbing w s).1 audioIOToken leftIsDown).1 = false) := by
  have key : (ContinueScrubbing w s).1.mScrubSpeedDisplayCountdown =
      (if (s.mScrubHasFocus && (s.mAlwaysSeeking || w.leftIsDown || s.mScrubSeekPress)) = true
        then (if s.mSmoothScrollingScrub = true then 1 else 0)
        else if s.mSmoothScrollingScrub = true then s.mScrubSpeedDisplayCountdown
        else if 0 < s.mScrubSpeedDisplayCountdown then s.mScrubSpeedDisplayCountdown - 1
        else s.mScrubSpeedDisplayCountdown) ∧
      (ContinueScrubbing w s).1.mSmoothScrollingScrub = s.mSmoothScrollingScrub := by
    cases hf : s.mScrubHasFocus <;>
      cases hseek : (s.mAlwaysSeeking || w.leftIsDown || s.mScrubSeekPress) <;>
      cases hsm : s.mSmoothScrollingScrub <;>
      cases hacc : w.accepted <;>
      simp [ContinueScrubbing, PollIsSeeking, hf, hseek, hsm, hacc] <;>
      split_ifs <;> simp
  refine ⟨key.1, ?_, ?_⟩
  · rw [key.1]
    split_ifs <;> omega
  · intro hsm hf hseek
    have h0 : (ContinueScrubbing w s).1.mScrubSpeedDisplayCountdown = 0 := by
      rw [key.1]; simp [hsm, hf, hseek]
    refine ⟨h0, ?_⟩
    intro tok l
    have hsm2 := key.2
    rw [hsm] at hsm2
    simp only [ShouldDrawScrubSpeed]
    by_cases h1 : (ContinueScrubbing w s).1.mScrubToken ≤ 0
    · rw [IsScrubbing_of_nonpos _ _ h1]; simp
    · by_cases h2 : (ContinueScrubbing w s).1.mScrubToken = tok
      · rw [IsScrubbing_of_live _ _ (not_le.mp h1) h2]
        simp [h0, hsm2]
      · rw [IsScrubbing_of_stale _ _ (not_le.mp h1) h2]; simp

/-- Witness for C22: a focused state in non-smooth mode with the countdown
at 21 and the left button down; the tick decides seek and leaves the
countdown at 0. -/
theorem ContinueScrubbing_countdown_witness :
    (ContinueScrubbing (sampleTick ℚ true 730 true)
      { sampleScrubber ℚ 5 100 with
        mScrubHasFocus := true, mScrubSpeedDisplayCountdown := 21 }).1.mScrubSpeedDisplayCountdown
      = 0 :=
  ((ContinueScrubbing_countdown (sampleTick ℚ true 730 true)
    { sampleScrubber ℚ 5 100 with
      mScrubHasFocus := true, mScrubSpeedDisplayCountdown := 21 }
    (by decide)).2.2 rfl rfl rfl).1

/-! ## Magnitudes of the speed mapper (C23, C24) -/

/-- C23.  For every maximum scrub speed and every `screen > 0`: the
magnitude of `FindSeekSpeed` lies between 1 and `extreme = max(1, 10 *
maxScrubSpeed)`; it is non-decreasing in the distance `|timeAtMouse -
origin|`; and it equals `extreme` whenever that distance is at least
`screen / 2`. -/
theorem FindSeekSpeed_magnitude {K : Type} [LinearOrderedField K] (h maxScrubSpeed screen timeAtMouse : K) (hscreen : 0 < screen) :
    (∃ r, FindSeekSpeed h maxScrubSpeed screen timeAtMouse = some r ∧
      1 ≤ |r| ∧ |r| ≤ max 1 (10 * maxScrubSpeed)) ∧
    (∀ t1 t2 : K, |t1 - (h + screen / 2)| ≤ |t2 - (h + screen / 2)| →
      ∃ r1 r2, FindSeekSpeed h maxScrubSpeed screen t1 = some r1 ∧
        FindSeekSpeed h maxScrubSpeed screen t2 = some r2 ∧ |r1| ≤ |r2|) ∧
    (screen / 2 ≤ |timeAtMouse - (h + screen / 2)| →
      ∃ r, FindSeekSpeed h maxScrubSpeed screen timeAtMouse = some r ∧
        |r| = max 1 (10 * maxScrubSpeed)) := by
  have hhalf : (0:K) < screen / 2 := by positivity
  have hx : (1:K) ≤ max 1 (maxScrubSpeed * 10) := le_max_left _ _
  have hcomm : (10 : K) * maxScrubSpeed = maxScrubSpeed * 10 := mul_comm _ _
  rw [hcomm]
  refine ⟨?_, ?_, ?_⟩
  · obtain ⟨r, hr, ha⟩ := FindSeekSpeed_abs h maxScrubSpeed screen timeAtMouse hscreen
    refine ⟨r, hr, ?_, ?_⟩
    · rw [ha]
      have h1 : (5 / 100 : K) ≤
          max (5 / 100) (min 1 (|timeAtMouse - (h + screen / 2)| / (screen / 2))) :=
        le_max_left _ _
      have : 0 ≤ (max (5 / 100 : K) (min 1 (|timeAtMouse - (h + screen / 2)| / (screen / 2)))
          - 5 / 100) / (1 - 5 / 100) * (max 1 (maxScrubSpeed * 10) - 1) :=
        mul_nonneg (div_nonneg (by linarith) (by norm_num)) (by linarith)
      linarith
    · rw [ha]
      have h1 : max (5 / 100 : K) (min 1 (|timeAtMouse - (h + screen / 2)| / (screen / 2)))
          ≤ 1 := max_le (by norm_num) (min_le_left _ _)
      have h2 : (max (5 / 100 : K) (min 1 (|timeAtMouse - (h + screen / 2)| / (screen / 2)))
          - 5 / 100) / (1 - 5 / 100) ≤ 1 := by
        rw [div_le_one (by norm_num)]; linarith
      have : (max (5 / 100 : K) (min 1 (|timeAtMouse - (h + screen / 2)| / (screen / 2)))
          - 5 / 100) / (1 - 5 / 100) * (max 1 (maxScrubSpeed * 10) - 1) ≤
          1 * (max 1 (maxScrubSpeed * 10) - 1) :=
        mul_le_mul_of_nonneg_right h2 (by linarith)
      linarith
  · intro t1 t2 hle
    obtain ⟨r1, hr1, ha1⟩ := FindSeekSpeed_abs h maxScrubSpeed screen t1 hscreen
    obtain ⟨r2, hr2, ha2⟩ := FindSeekSpeed_abs h maxScrubSpeed screen t2 hscreen
    refine ⟨r1, r2, hr1, hr2, ?_⟩
    rw [ha1, ha2]
    have hq : |t1 - (h + screen / 2)| / (screen / 2) ≤ |t2 - (h + screen / 2)| / (screen / 2) :=
      div_le_div_of_nonneg_right hle (le_of_lt hhalf)
    have hfr : max (5 / 100 : K) (min 1 (|t1 - (h + screen / 2)| / (screen / 2))) ≤
        max (5 / 100) (min 1 (|t2 - (h + screen / 2)| / (screen / 2))) :=
      max_le_max le_rfl (min_le_min le_rfl hq)
    have hd : (max (5 / 100 : K) (min 1 (|t1 - (h + screen / 2)| / (screen / 2)))
          - 5 / 100) / (1 - 5 / 100) ≤
        (max (5 / 100) (min 1 (|t2 - (h + screen / 2)| / (screen / 2))) - 5 / 100) /
          (1 - 5 / 100) :=
      div_le_div_of_nonneg_right (by linarith) (by norm_num)
    have := mul_le_mul_of_nonneg_right hd (show (0:K) ≤ max 1 (maxScrubSpeed * 10) - 1 by
      linarith)
    linarith
  · intro hfar
    obtain ⟨r, hr, ha⟩ := FindSeekSpeed_abs h maxScrubSpeed screen timeAtMouse hscreen
    refine ⟨r, hr, ?_⟩
    rw [ha]
    have hq : (1:K) ≤ |timeAtMouse - (h + screen / 2)| / (screen / 2) := by
      rw [le_div_iff₀ hhalf, one_mul]; exact hfar
    rw [min_eq_left hq, max_eq_right (by norm_num : (5 / 100 : K) ≤ 1)]
    have : ((1:K) - 5 / 100) / (1 - 5 / 100) = 1 := div_self (by norm_num)
    rw [this]
    ring

/-- Witness for C23: maximum speed 1, screen of 10 seconds from offset 0,
pointer at time 10, the right edge, where the magnitude is the extreme. -/
theorem FindSeekSpeed_magnitude_witness :
    ∃ r, FindSeekSpeed (0:ℚ) 1 10 10 = some r ∧ |r| = max 1 (10 * 1) :=
  (FindSeekSpeed_magnitude (0:ℚ) 1 10 10 (by norm_num)).2.2
    (by rw [abs_of_pos] <;> norm_num)

/-- Monotonicity of the magnitude over exact numbers.  For `maxScrubSpeed >
0` and `screen > 0`, and pointer times `t1`, `t2` with `|t1 - origin| ≤
|t2 - origin|`, unless a divisor of the remapping is exactly 0
(`maxScrubSpeed = 18` with `t1` at the origin, or `maxScrubSpeed = 18/17`
with `t2` in the edge dead zone), `FindScrubbingSpeed` returns a value at
both times and the magnitude at `t1` is at most the magnitude at `t2`. -/
theorem FindScrubbingSpeed_magnitude_mono {K : Type} [LinearOrderedField K] (h maxScrubSpeed screen t1 t2 : K)
    (hmax : 0 < maxScrubSpeed) (hscreen : 0 < screen)
    (hle : |t1 - (h + screen / 2)| ≤ |t2 - (h + screen / 2)|)
    (h18 : maxScrubSpeed ≠ 18 ∨ t1 ≠ h + screen / 2)
    (h1817 : maxScrubSpeed ≠ 18 / 17 ∨ |t2 - (h + screen / 2)| < (9 / 10) * screen / 2) :
    ∃ r1 r2, FindScrubbingSpeed h maxScrubSpeed screen t1 = some r1 ∧
      FindScrubbingSpeed h maxScrubSpeed screen t2 = some r2 ∧ |r1| ≤ |r2| := by
  have hdpos : (0:K) < (9 / 10) * screen / 2 := by positivity
  have h18b : maxScrubSpeed ≠ 18 ∨ t2 ≠ h + screen / 2 := by
    rcases h18 with hd | hd
    · exact Or.inl hd
    · right
      intro he
      rw [he, sub_self, abs_zero] at hle
      exact hd (sub_eq_zero.mp (abs_eq_zero.mp (le_antisymm hle (abs_nonneg _))))
  have h1817a : maxScrubSpeed ≠ 18 / 17 ∨
      |t1 - (h + screen / 2)| < (9 / 10) * screen / 2 := by
    rcases h1817 with hd | hd
    · exact Or.inl hd
    · exact Or.inr (lt_of_le_of_lt hle hd)
  obtain ⟨r1, hr1, ha1⟩ :=
    FindScrubbingSpeed_abs_eq h maxScrubSpeed screen t1 hmax hscreen h18 h1817a
  obtain ⟨r2, hr2, ha2⟩ :=
    FindScrubbingSpeed_abs_eq h maxScrubSpeed screen t2 hmax hscreen h18b h1817
  refine ⟨r1, r2, hr1, hr2, ?_⟩
  rw [ha1, ha2]
  have hq : |t1 - (h + screen / 2)| / ((9 / 10) * screen / 2) ≤
      |t2 - (h + screen / 2)| / ((9 / 10) * screen / 2) :=
    div_le_div_of_nonneg_right hle (le_of_lt hdpos)
  have hq0 : 0 ≤ |t1 - (h + screen / 2)| / ((9 / 10) * screen / 2) :=
    div_nonneg (abs_nonneg _) (le_of_lt hdpos)
  exact mul_le_mul_of_nonneg_right
    (scrubRemap_mono _ _ _ (by positivity) (le_min zero_le_one hq0)
      (min_le_min le_rfl hq) (min_le_left _ _)) (le_of_lt hmax)

/-- Example of the monotonicity: maximum speed 2, screen of 10 seconds from
offset 0, pointer times 4 and 1, at distances 1 and 4 from the origin 5. -/
theorem FindScrubbingSpeed_magnitude_mono_example :
    ∃ r1 r2, FindScrubbingSpeed (0:ℚ) 2 10 4 = some r1 ∧
      FindScrubbingSpeed (0:ℚ) 2 10 1 = some r2 ∧ |r1| ≤ |r2| :=
  FindScrubbingSpeed_magnitude_mono (0:ℚ) 2 10 4 1 (by norm_num) (by norm_num)
    (by rw [abs_of_neg, abs_of_neg] <;> norm_num) (Or.inl (by norm_num))
    (Or.inl (by norm_num))

end Scrubbing
